import Mathlib

/-!
Verification development for the SV-COMP adjudication core
(`sv-comp/scripts/prepare_tables`): the verdict-reconciliation engine
(`adjust_results_verifiers.py`), the witness-classification engine
(`mkAnaDatabaseWitnesses.py`), the category aggregation and meta-category
normalization (`mkAnaScores.py`, `utils.py`), and the ranking selectors
(`mkAnaScores.py`, `mkAnaScoresValidators.py`).

Python strings are modelled as Lean `String`; the Python string operations
used by the scripts are re-implemented over the underlying character lists so
that every definition evaluates inside the kernel.  Python `Decimal` values
are modelled as `ℚ` (all operations used by the scripts — addition,
subtraction, multiplication, division, `max`, comparisons — are exact on the
inputs in question).  Python functions that can raise (failed `assert`,
`KeyError`, `AttributeError` outside a `try`, `ZeroDivisionError`) are
modelled as `Option`-valued functions returning `none` on the raising paths.
-/

/-! ## String helpers (models of the Python string operations used) -/

/-- Model of Python `s.startswith(p)`. -/
def strStartsWith (s p : String) : Bool := List.isPrefixOf p.data s.data

/-- Model of Python `s.endswith(p)`. -/
def strEndsWith (s p : String) : Bool := List.isSuffixOf p.data s.data

/-- Helper: does `p` occur as a contiguous run inside `l`? -/
def infixOfAux (p : List Char) : List Char → Bool
  | [] => List.isPrefixOf p []
  | c :: rest => List.isPrefixOf p (c :: rest) || infixOfAux p rest

/-- Model of Python `re.search(p, s)` for a literal pattern `p`
(substring containment). -/
def strContainsSub (s p : String) : Bool := infixOfAux p.data s.data

/-- Model of Python `s.split("(")[0]`: the part before the first `(`. -/
def mainStatus (s : String) : String := ⟨s.data.takeWhile (· ≠ '(')⟩

/-- Model of Python `s.lower()`. -/
def strToLower (s : String) : String := ⟨s.data.map Char.toLower⟩

/-- Model of Python `s.replace("%", "")`. -/
def stripPercent (s : String) : String := ⟨s.data.filter (· ≠ '%')⟩

/-- Helper for `splitValidate`: the part of `l` before the first occurrence
of the pattern `p` (all of `l` when `p` does not occur). -/
def beforePatAux (p : List Char) : List Char → List Char
  | [] => []
  | c :: rest =>
    if List.isPrefixOf p (c :: rest) then [] else c :: beforePatAux p rest

/-- Model of Python `s.split("-validate-")[0]`. -/
def splitValidate (s : String) : String := ⟨beforePatAux "-validate-".data s.data⟩

/-- Helper: read a list of decimal digits as a natural number
(`none` when a character is not a digit or the list is empty). -/
def digitsToNat : List Char → Option Nat
  | [] => none
  | cs => cs.foldl (fun acc c =>
      acc.bind (fun n => if c.isDigit then some (n * 10 + (c.toNat - '0'.toNat)) else none))
      (some 0)

/-- Model of Python `Decimal(s)` on plain numeric literals: optional sign,
integer digits, optional fractional digits.  Inputs outside this grammar
(as in the `InvalidOperation` cases of the scripts) yield `none`. -/
def parseDecimal (s : String) : Option ℚ :=
  let (sign, cs) : ℚ × List Char :=
    match s.data with
    | '-' :: rest => (-1, rest)
    | '+' :: rest => (1, rest)
    | cs => (1, cs)
  let intPart := cs.takeWhile (· ≠ '.')
  let rest := cs.dropWhile (· ≠ '.')
  match rest with
  | [] => (digitsToNat intPart).map (fun n => sign * n)
  | _ :: fracPart =>
    if intPart = [] ∧ fracPart = [] then none
    else
      let frac : Option ℚ :=
        if fracPart = [] then some 0
        else (digitsToNat fracPart).map (fun n => (n : ℚ) / ((10 : ℚ) ^ fracPart.length))
      let intv : Option ℚ :=
        if intPart = [] then some 0
        else (digitsToNat intPart).map (fun n => (n : ℚ))
      match intv, frac with
      | some i, some f => if (intPart.all (·.isDigit)) ∧ (fracPart.all (·.isDigit))
          then some (sign * (i + f)) else none
      | _, _ => none

/-! ## Constants of the external `benchexec.result` module

`benchexec` is vendored next to the scripts (not part of the core sources);
the category labels below are the documented benchexec result categories
(spec §3: status/category enumeration of a `RunRecord`). -/

/-- benchexec `result.CATEGORY_CORRECT`. -/
def CATEGORY_CORRECT : String := "correct"

/-- benchexec `result.CATEGORY_CORRECT_UNCONFIRMED`. -/
def CATEGORY_CORRECT_UNCONFIRMED : String := "correct-unconfirmed"

/-- benchexec `result.CATEGORY_WRONG` : String. -/
def CATEGORY_WRONG : String := "wrong"

/-- benchexec `result.CATEGORY_ERROR`. -/
def CATEGORY_ERROR : String := "error"

/-- benchexec `result.CATEGORY_UNKNOWN`. -/
def CATEGORY_UNKNOWN : String := "unknown"

/-- benchexec `result.CATEGORY_MISSING`. -/
def CATEGORY_MISSING : String := "missing"

/-- benchexec `result.RESULT_TRUE_PROP`. -/
def RESULT_TRUE_PROP : String := "true"

/-- benchexec `result.RESULT_FALSE_PROP`. -/
def RESULT_FALSE_PROP : String := "false"

/-- benchexec `result.RESULT_DONE`. -/
def RESULT_DONE : String := "done"

/-- Modelled from the spec: witness-classification labels (spec §3,
`WitnessClassification` maps to `{correct, wrong, unknown}`); the constants
`WITNESS_CATEGORY_*` live in the vendored benchexec `result` module, which is
not among the core sources.  Only their distinctness matters here. -/
def WITNESS_CATEGORY_CORRECT : String := "witness-correct"

/-- Modelled from the spec: see `WITNESS_CATEGORY_CORRECT`. -/
def WITNESS_CATEGORY_WRONG : String := "witness-wrong"

/-- Modelled from the spec: see `WITNESS_CATEGORY_CORRECT`. -/
def WITNESS_CATEGORY_UNKNOWN : String := "witness-unknown"

/-- Modelled from the spec: benchexec `print_decimal` (external rendering
helper); the produced text is never inspected by the engine. -/
def print_decimal (d : ℚ) : String := toString d

/-! ## Run records (`adjust_results_verifiers.py`)

A `Run` models one `<run>` XML element: its attributes (`name`,
`properties`, `expectedVerdict`) and the columns read or written by the
reconciliation engine (`status`, `category`, `branches_covered`,
`witnesslint-witness-file`, `score`).  A column value of `none` models an
absent column. -/

structure Run where
  name : String
  properties : Option String := none
  expectedVerdict : Option String := none
  status : Option String := none
  category : Option String := none
  branches_covered : Option String := none
  witness_file : Option String := none
  score : Option String := none
deriving Repr, DecidableEq

/-- A `BenchmarkRuns` models one result XML file: the `name` attribute of the
root element and its list of runs (`original_file` and `tool` only feed
logging/assert messages and are omitted). -/
structure BenchmarkRuns where
  name : String := ""
  runs : List Run := []
deriving Repr, DecidableEq

/-- One insertion step of Python dict construction (later value wins,
first-insertion position kept). -/
def dictInsert (acc : List (String × Run)) (kv : String × Run) : List (String × Run) :=
  if acc.any (fun p => p.1 == kv.1) then
    acc.map (fun p => if p.1 == kv.1 then (p.1, kv.2) else p)
  else acc ++ [kv]

/-- Model of `BenchmarkRuns.as_dictionary`: run name → run, with Python
dict semantics. -/
def asDictionary (runs : List Run) : List (String × Run) :=
  runs.foldl (fun acc r => dictInsert acc (r.name, r)) []

/-- Model of `runs.as_dictionary.get(name)`. -/
def lookupRun (b : BenchmarkRuns) (n : String) : Option Run :=
  ((asDictionary b.runs).find? (fun p => p.1 == n)).map (·.2)

/-! ## `get_validator_linter_result` -/

/-- Model of `get_validator_linter_result`.  The first argument is the
validator/linter run for the task (`none` = no run result).  The result is
`none` exactly when the Python function raises (the `assert` that the
status column exists fails). -/
def get_validator_linter_result (vl : Option Run) (verification_run : Run) :
    Option (String × String) :=
  match vl with
  | none => some ("validation run missing", CATEGORY_ERROR)
  | some vlr =>
    match vlr.status with
    | none => none
    | some status_from_validation =>
      -- try/except AttributeError: both reads must succeed, otherwise
      -- ("not found", missing)
      let sc : String × String :=
        match verification_run.status, verification_run.category with
        | some s, some c => (s, c)
        | _, _ => ("not found", CATEGORY_MISSING)
      let status_from_verification := sc.1
      let category_from_verification := sc.2
      if status_from_validation == status_from_verification then
        some (status_from_verification, category_from_verification)
      else
      let main_status_from_verification := mainStatus status_from_verification
      let main_status_from_validation := mainStatus status_from_validation
      let property_is_memsafety := vlr.properties == some "valid-memsafety"
      if main_status_from_verification == main_status_from_validation
          && !property_is_memsafety then
        some (status_from_verification, category_from_verification)
      else if status_from_validation == "ERROR (invalid witness syntax)" then
        some ("witness invalid (" ++ status_from_verification ++ ")", CATEGORY_ERROR)
      else if status_from_validation == "ERROR (witness does not exist)" then
        some ("witness missing (" ++ status_from_verification ++ ")", CATEGORY_ERROR)
      else if status_from_validation == "ERROR (unexpected witness type)" then
        some ("witness-type mismatch (" ++ status_from_verification ++ ")", CATEGORY_ERROR)
      else if status_from_validation == "ERROR (unexpected witness version)" then
        some ("witness-version mismatch (" ++ status_from_verification ++ ")", CATEGORY_ERROR)
      else if category_from_verification == CATEGORY_CORRECT then
        some (status_from_verification, CATEGORY_CORRECT_UNCONFIRMED)
      else
        some ("result invalid (" ++ status_from_verification ++ ")", CATEGORY_ERROR)

/-! ## `get_validation_result` -/

/-- The linter loop of `get_validation_result`: linters without a run for
the task are skipped (`continue`); once a previous linter produced a
non-error verdict the accumulator is left unchanged. -/
def linterPhase (verifier : Run) (linters : List BenchmarkRuns)
    (acc : Option String × Option String) : Option (Option String × Option String) :=
  match linters with
  | [] => some acc
  | linter :: rest =>
    match lookupRun linter verifier.name with
    | none => linterPhase verifier rest acc
    | some lrun =>
      match get_validator_linter_result (some lrun) verifier with
      | none => none
      | some res =>
        if acc.2 ≠ none ∧ acc.2 ≠ some CATEGORY_ERROR then
          linterPhase verifier rest acc
        else
          linterPhase verifier rest (some res.1, some res.2)

/-- Mutable state of the validator loop of `get_validation_result`. -/
structure VState where
  status_wit : Option String
  category_wit : Option String
  coverage_wit : ℚ
  category_from_verification : String
deriving Repr, DecidableEq

/-- The validator loop of `get_validation_result` (including the Test-Comp
coverage branches, which overwrite `category_from_verification`). -/
def validatorPhase (verifier : Run) (status_from_verification : String)
    (validators : List BenchmarkRuns) (st : VState) : Option VState :=
  match validators with
  | [] => some st
  | validator :: rest =>
    match lookupRun validator verifier.name with
    | none => validatorPhase verifier status_from_verification rest st
    | some vrun =>
      if verifier.properties == some "coverage-error-call" then
        match vrun.status with
        | none => none  -- AttributeError outside a try block
        | some status_from_validation =>
          if status_from_validation == "true" then
            validatorPhase verifier status_from_verification rest
              ⟨some status_from_verification, some CATEGORY_CORRECT,
               max st.coverage_wit 1, CATEGORY_CORRECT⟩
          else
            validatorPhase verifier status_from_verification rest st
      else if verifier.properties == some "coverage-branches" then
        -- try/except AttributeError: absent column means coverage 0
        let parsed : Option ℚ :=
          match vrun.branches_covered with
          | none => some 0
          | some v => parseDecimal (stripPercent v)
        match parsed with
        | some d =>
          validatorPhase verifier status_from_verification rest
            ⟨some status_from_verification, some CATEGORY_CORRECT,
             max st.coverage_wit (d / 100), CATEGORY_CORRECT⟩
        | none =>
          -- InvalidOperation: continue, but status/category already overwritten
          validatorPhase verifier status_from_verification rest
            ⟨some status_from_verification, some CATEGORY_CORRECT,
             st.coverage_wit, CATEGORY_CORRECT⟩
      else
        match get_validator_linter_result (some vrun) verifier with
        | none => none
        | some res =>
          let overwrite : Bool :=
            match st.category_wit with
            | none => true
            | some cw => !(strStartsWith cw CATEGORY_CORRECT) || res.2 == CATEGORY_CORRECT
          if overwrite then
            validatorPhase verifier status_from_verification rest
              ⟨some res.1, some res.2, st.coverage_wit, st.category_from_verification⟩
          else
            validatorPhase verifier status_from_verification rest st

/-- Model of `get_validation_result`.  Returns
`(status_wit, category_wit, status_from_verification,
category_from_verification, verifier-run)`; the last component carries the
in-place mutation of the `score` column performed for the Test-Comp coverage
properties.  `none` models a raised exception. -/
def get_validation_result (verifier : Run) (validators linters : List BenchmarkRuns)
    (status_from_verification category_from_verification : String) :
    Option (Option String × Option String × String × String × Run) :=
  match linterPhase verifier linters (none, none) with
  | none => none
  | some (status_wit, category_wit) =>
    -- all linters present reported an error on the witness
    if category_wit = some CATEGORY_ERROR then
      some (status_wit, category_wit, status_from_verification,
            category_from_verification, verifier)
    else
      match validatorPhase verifier status_from_verification validators
          ⟨status_wit, category_wit, 0, category_from_verification⟩ with
      | none => none
      | some st =>
        if verifier.properties = some "coverage-error-call"
            ∨ verifier.properties = some "coverage-branches" then
          some (st.status_wit, st.category_wit, status_from_verification,
                st.category_from_verification,
                { verifier with score := some (print_decimal st.coverage_wit) })
        else
          some (st.status_wit, st.category_wit, status_from_verification,
                st.category_from_verification, verifier)

/-! ## `get_validation_results_for_run` -/

/-- Separation of GraphML and YAML linters by the
`witnesslint-witness-file` column. -/
def splitLinters (task_name : String) : List BenchmarkRuns →
    List BenchmarkRuns × List BenchmarkRuns
  | [] => ([], [])
  | linter :: rest =>
    let (g, y) := splitLinters task_name rest
    match (lookupRun linter task_name).bind (·.witness_file) with
    | none => (linter :: g, linter :: y)
    | some wn =>
      if strEndsWith wn ".graphml" then (linter :: g, y)
      else if strEndsWith wn ".yml" then (g, linter :: y)
      else (linter :: g, linter :: y)

/-- The ordered `WitnessLintErrors` enum values. -/
def witnessLintErrorValues : List String :=
  ["witness invalid", "witness-version mismatch", "witness-type mismatch",
   "witness missing", "result invalid"]

/-- The error-message selection loop of `get_validation_results_for_run`:
`some true` = return the YAML tuple, `some false` = return the GraphML
tuple, `none` = fall through. -/
def pickLintError (statusYml statusGraphml : Option String) :
    List String → Option Bool
  | [] => none
  | err :: rest =>
    match statusYml with
    | some sY =>
      if strStartsWith sY err then some true
      else match statusGraphml with
        | some sG => if strStartsWith sG err then some false
                     else pickLintError statusYml statusGraphml rest
        | none => pickLintError statusYml statusGraphml rest
    | none =>
      match statusGraphml with
      | some sG => if strStartsWith sG err then some false
                   else pickLintError statusYml statusGraphml rest
      | none => pickLintError statusYml statusGraphml rest

/-- Model of `get_validation_results_for_run` (two independent witness
pools: GraphML first, then YAML; a structured-pool CORRECT wins;
two ERROR pools surface the most specific linter error). -/
def get_validation_results_for_run (run : Run)
    (validator_sets linter_sets : List BenchmarkRuns)
    (status_from_verification category_from_verification : String) :
    Option (Option String × Option String × String × String × Run) :=
  match get_validation_result run validator_sets
      (splitLinters run.name linter_sets).1
      status_from_verification category_from_verification with
  | none => none
  | some (sG, cG, svG, cvG, run1) =>
    if cG = some CATEGORY_CORRECT then
      some (sG, cG, svG, cvG, run1)
    else
      match get_validation_result run1 validator_sets
          (splitLinters run.name linter_sets).2
          status_from_verification category_from_verification with
      | none => none
      | some (sY, cY, svY, cvY, run2) =>
        if cY = some CATEGORY_CORRECT then
          some (sY, cY, svY, cvY, run2)
        else if cG = some CATEGORY_ERROR ∧ cY = some CATEGORY_ERROR then
          match pickLintError sY sG witnessLintErrorValues with
          | some true => some (sY, cY, svY, cvY, run2)
          | some false => some (sG, cG, svG, cvG, run2)
          | none =>
            some (some status_from_verification, some CATEGORY_CORRECT_UNCONFIRMED,
                  svG, cvG, run2)
        else
          some (some status_from_verification, some CATEGORY_CORRECT_UNCONFIRMED,
                svG, cvG, run2)

/-! ## `adjust_status_category` -/

/-- Model of the local `set_status_and_category_for_run` (set the column
value, appending the column when absent). -/
def set_status_and_category_for_run (r : Run) (s c : String) : Run :=
  { r with status := some s, category := some c }

/-- The category patterns of the `re.search` in `adjust_status_category`
(alternation of literals). -/
def svcompPatterns : List String :=
  ["-Arrays", "-Floats", "-Heap", "MemSafety", "MemCleanup", "NoDataRace",
   "ConcurrencySafety-", "Termination", "-Java"]

/-- The body of the per-run loop of `adjust_status_category`. -/
def adjustRun (runs_name : String) (validators linters : List BenchmarkRuns)
    (invalid_tasks : List String) (run : Run) : Option Run :=
  if run.name ∈ invalid_tasks then
    some (set_status_and_category_for_run run
      ("invalid task (" ++ run.status.getD "not found" ++ ")") CATEGORY_MISSING)
  else if strContainsSub runs_name "SV-COMP"
      ∧ svcompPatterns.any (fun p => strContainsSub runs_name p)
      ∧ run.expectedVerdict = some "true" then
    some run
  else
    match get_validation_results_for_run run validators linters
        (run.status.getD "not found") (run.category.getD CATEGORY_MISSING) with
    | none => none
    | some (statusWit, categoryWit, _, category_from_verification2, run2) =>
      if category_from_verification2 = CATEGORY_CORRECT then
        match statusWit, categoryWit with
        | some s, some c => some (set_status_and_category_for_run run2 s c)
        | _, _ => some run2
      else
        some run2

/-- Model of `adjust_status_category`: every run of the verifier run set is
rewritten in place; the result is the updated name→run dictionary
(`none` models a raised exception). -/
def adjust_status_category (verifier_runs : BenchmarkRuns)
    (validators linters : List BenchmarkRuns) (invalid_tasks : List String) :
    Option (List (String × Run)) :=
  (asDictionary verifier_runs.runs).mapM
    (fun p => (adjustRun verifier_runs.name validators linters invalid_tasks p.2).map
      (fun r => (p.1, r)))

-- sanity examples mirroring rows of `test_getWitnessResult`
example :
    get_validator_linter_result none ⟨"t", none, none, none, none, none, none, none⟩
      = some ("validation run missing", CATEGORY_ERROR) := by rfl

example :
    get_validator_linter_result
      (some { name := "t", status := some "TIMEOUT" })
      { name := "t", status := some "true", category := some CATEGORY_CORRECT }
      = some ("true", CATEGORY_CORRECT_UNCONFIRMED) := by rfl

example :
    get_validator_linter_result
      (some { name := "t", status := some "ERROR (invalid witness syntax)" })
      { name := "t", status := some "false(unreach-call)", category := some CATEGORY_CORRECT }
      = some ("witness invalid (false(unreach-call))", CATEGORY_ERROR) := by rfl

example :
    get_validator_linter_result
      (some { name := "t", status := some "false(other)" })
      { name := "t", status := some "false(unreach-call)", category := some CATEGORY_CORRECT }
      = some ("false(unreach-call)", CATEGORY_CORRECT) := by rfl

/-! ## Lemmas about the reconciliation engine -/

/-- A previously adopted non-error linter verdict is never changed by later
linters. -/
theorem linterPhase_preserved (verifier : Run) (linters : List BenchmarkRuns)
    (acc out : Option String × Option String) (c : String)
    (hrun : linterPhase verifier linters acc = some out)
    (hacc : acc.2 = some c) (hc : c ≠ CATEGORY_ERROR) : out = acc := by
  induction linters generalizing out with
  | nil => simpa [linterPhase] using hrun.symm
  | cons linter rest ih =>
    rw [linterPhase] at hrun
    split at hrun
    · exact ih _ hrun
    · split at hrun
      · exact absurd hrun (by simp)
      · split at hrun
        · exact ih _ hrun
        · next hguard =>
          exact absurd ⟨by simp [hacc], by simpa [hacc] using hc⟩ hguard

/-- A linter whose run set has no run for the task is skipped by the linter
loop. -/
theorem linterPhase_skip (verifier : Run) (linterSet : BenchmarkRuns)
    (rest : List BenchmarkRuns) (acc : Option String × Option String)
    (h : lookupRun linterSet verifier.name = none) :
    linterPhase verifier (linterSet :: rest) acc = linterPhase verifier rest acc := by
  rw [linterPhase, h]

/-- While no non-error verdict has been adopted, the current linter's own
pairwise result is adopted and processing continues with the later linters. -/
theorem linterPhase_adopt (verifier : Run) (linterSet : BenchmarkRuns)
    (rest : List BenchmarkRuns) (acc : Option String × Option String)
    (lrun : Run) (res : String × String)
    (hacc : acc.2 = none ∨ acc.2 = some CATEGORY_ERROR)
    (hfind : lookupRun linterSet verifier.name = some lrun)
    (hres : get_validator_linter_result (some lrun) verifier = some res) :
    linterPhase verifier (linterSet :: rest) acc
      = linterPhase verifier rest (some res.1, some res.2) := by
  rw [linterPhase]
  simp only [hfind, hres]
  rw [if_neg]
  rcases hacc with h | h <;> simp [h]

/-- For properties other than the Test-Comp coverage properties, the
validator loop never changes the `category_from_verification` component. -/
theorem validatorPhase_category_from_verification (verifier : Run)
    (sfv : String) (validators : List BenchmarkRuns) (st st' : VState)
    (hp1 : verifier.properties ≠ some "coverage-error-call")
    (hp2 : verifier.properties ≠ some "coverage-branches")
    (hrun : validatorPhase verifier sfv validators st = some st') :
    st'.category_from_verification = st.category_from_verification := by
  induction validators generalizing st with
  | nil =>
    simp only [validatorPhase, Option.some.injEq] at hrun
    rw [← hrun]
  | cons validator rest ih =>
    rw [validatorPhase] at hrun
    rw [show (verifier.properties == some "coverage-error-call") = false by
        simpa using hp1,
      show (verifier.properties == some "coverage-branches") = false by
        simpa using hp2] at hrun
    simp only [Bool.false_eq_true, if_false] at hrun
    repeat' split at hrun
    all_goals first
      | exact absurd hrun (by simp)
      | (have h2 := ih _ hrun; exact h2)

/-- For properties other than the Test-Comp coverage properties,
`get_validation_result` passes `status_from_verification` and
`category_from_verification` through unchanged and does not touch the
verifier run. -/
theorem get_validation_result_noncoverage (verifier : Run)
    (validators linters : List BenchmarkRuns) (sfv cfv : String)
    (sw cw : Option String) (s2 c2 : String) (run' : Run)
    (hp1 : verifier.properties ≠ some "coverage-error-call")
    (hp2 : verifier.properties ≠ some "coverage-branches")
    (hrun : get_validation_result verifier validators linters sfv cfv
      = some (sw, cw, s2, c2, run')) :
    s2 = sfv ∧ c2 = cfv ∧ run' = verifier := by
  rw [get_validation_result] at hrun
  split at hrun
  · exact absurd hrun (by simp)
  · rename_i status_wit category_wit hl
    split at hrun
    · simp only [Option.some.injEq, Prod.mk.injEq] at hrun
      exact ⟨hrun.2.2.1.symm, hrun.2.2.2.1.symm, hrun.2.2.2.2.symm⟩
    · split at hrun
      · exact absurd hrun (by simp)
      · rename_i st hv
        split at hrun
        · rename_i hcov
          exact (hcov.elim hp1 hp2).elim
        · simp only [Option.some.injEq, Prod.mk.injEq] at hrun
          refine ⟨hrun.2.2.1.symm, ?_, hrun.2.2.2.2.symm⟩
          rw [← hrun.2.2.2.1]
          exact validatorPhase_category_from_verification verifier sfv validators
            _ st hp1 hp2 hv

/-- Same pass-through property for `get_validation_results_for_run`. -/
theorem get_validation_results_for_run_noncoverage (run : Run)
    (validator_sets linter_sets : List BenchmarkRuns) (sfv cfv : String)
    (sw cw : Option String) (s2 c2 : String) (run' : Run)
    (hp1 : run.properties ≠ some "coverage-error-call")
    (hp2 : run.properties ≠ some "coverage-branches")
    (hrun : get_validation_results_for_run run validator_sets linter_sets sfv cfv
      = some (sw, cw, s2, c2, run')) :
    s2 = sfv ∧ c2 = cfv ∧ run' = run := by
  rw [get_validation_results_for_run] at hrun
  split at hrun
  · exact absurd hrun (by simp)
  · rename_i sG cG svG cvG run1 h1
    obtain ⟨rfl, rfl, rfl⟩ :=
      get_validation_result_noncoverage run validator_sets _ sfv cfv
        sG cG svG cvG run1 hp1 hp2 h1
    split at hrun
    · simp only [Option.some.injEq, Prod.mk.injEq] at hrun
      exact ⟨hrun.2.2.1.symm, hrun.2.2.2.1.symm, hrun.2.2.2.2.symm⟩
    · split at hrun
      · exact absurd hrun (by simp)
      · rename_i sY cY svY cvY run2 h2
        obtain ⟨rfl, rfl, rfl⟩ :=
          get_validation_result_noncoverage _ validator_sets _ _ _
            sY cY svY cvY run2 hp1 hp2 h2
        repeat' split at hrun
        all_goals simp only [Option.some.injEq, Prod.mk.injEq] at hrun
        all_goals exact ⟨hrun.2.2.1.symm, hrun.2.2.2.1.symm, hrun.2.2.2.2.symm⟩

/-- A run that is not on the invalid-tasks list, has no coverage property,
and whose verification category is not CORRECT is returned unchanged by the
per-run body of `adjust_status_category`. -/
theorem adjustRun_noncorrect (runs_name : String)
    (validators linters : List BenchmarkRuns) (invalid_tasks : List String)
    (run out : Run)
    (hinv : run.name ∉ invalid_tasks)
    (hp1 : run.properties ≠ some "coverage-error-call")
    (hp2 : run.properties ≠ some "coverage-branches")
    (hcat : run.category.getD CATEGORY_MISSING ≠ CATEGORY_CORRECT)
    (hrun : adjustRun runs_name validators linters invalid_tasks run = some out) :
    out = run := by
  rw [adjustRun, if_neg hinv] at hrun
  split at hrun
  · simpa using hrun.symm
  · split at hrun
    · exact absurd hrun (by simp)
    · rename_i statusWit categoryWit x c2 run2 hg
      obtain ⟨hx, hc2, hrun2⟩ :=
        get_validation_results_for_run_noncoverage run validators linters _ _
          statusWit categoryWit x c2 run2 hp1 hp2 hg
      subst hc2 hrun2
      rw [if_neg hcat] at hrun
      simpa using hrun.symm

/-- Membership lemma for `List.mapM` over `Option`. -/
theorem mapM_option_mem {α β : Type} (f : α → Option β) (l : List α)
    (out : List β) (h : l.mapM f = some out) :
    ∀ a ∈ l, ∃ b ∈ out, f a = some b := by
  induction l generalizing out with
  | nil => intro a ha; exact absurd ha (by simp)
  | cons x xs ih =>
    intro a ha
    rw [List.mapM_cons] at h
    cases hfx : f x with
    | none => rw [hfx] at h; simp at h
    | some y =>
      rw [hfx] at h
      cases hxs : xs.mapM f with
      | none => rw [hxs] at h; simp at h
      | some ys =>
        rw [hxs] at h
        simp only [Option.bind_eq_bind, Option.some_bind, Option.pure_def,
          Option.some.injEq] at h
        subst h
        rcases List.mem_cons.mp ha with rfl | hmem
        · exact ⟨y, by simp, hfx⟩
        · obtain ⟨b, hb, hfb⟩ := ih ys hxs a hmem
          exact ⟨b, by simp [hb], hfb⟩

/-! ## Claim C1 -/

/-- C1 counterexample: `adjust_status_category` does rewrite a run whose
verification category is WRONG: for the Test-Comp coverage property
`coverage-branches`, one validator run suffices to overwrite the category
with CORRECT.  The claim "WRONG, ERROR, UNKNOWN, MISSING are left untouched
regardless of validator evidence" is therefore false as stated. -/
theorem C1_counterexample :
    (adjust_status_category
        { name := "X",
          runs := [{ name := "t", properties := some "coverage-branches",
                     status := some "true", category := some "wrong" }] }
        [{ name := "V", runs := [{ name := "t", status := some "true" }] }]
        [] []).map
      (fun l => l.map (fun p => (p.1, p.2.status, p.2.category)))
      = some [("t", some "true", some CATEGORY_CORRECT)]
    ∧ "wrong" ≠ CATEGORY_CORRECT := by
  exact ⟨by rfl, by decide⟩

/-- C1 (amended): for every verifier run that is not on the invalid-tasks
list and whose property is not one of the Test-Comp coverage properties
(`coverage-error-call`, `coverage-branches`), if the category from
verification is not CORRECT then `adjust_status_category` leaves the run
(in particular its status and category columns) unchanged, regardless of
any validator or linter evidence. -/
theorem C1_amended_noncorrect_left_unchanged
    (verifier_runs : BenchmarkRuns) (validators linters : List BenchmarkRuns)
    (invalid_tasks : List String) (out : List (String × Run)) (n : String) (r : Run)
    (hadj : adjust_status_category verifier_runs validators linters invalid_tasks
      = some out)
    (hmem : (n, r) ∈ asDictionary verifier_runs.runs)
    (hinv : r.name ∉ invalid_tasks)
    (hp1 : r.properties ≠ some "coverage-error-call")
    (hp2 : r.properties ≠ some "coverage-branches")
    (hcat : r.category.getD CATEGORY_MISSING ≠ CATEGORY_CORRECT) :
    (n, r) ∈ out := by
  rw [adjust_status_category] at hadj
  obtain ⟨b, hb, hfb⟩ := mapM_option_mem _ _ _ hadj (n, r) hmem
  cases har : adjustRun verifier_runs.name validators linters invalid_tasks r with
  | none => rw [har] at hfb; exact absurd hfb (by simp)
  | some r2 =>
    have hr2 : r2 = r :=
      adjustRun_noncorrect _ _ _ _ _ _ hinv hp1 hp2 hcat har
    rw [har, hr2] at hfb
    simp at hfb
    subst hfb
    exact hb

/-- Witness for `C1_amended_noncorrect_left_unchanged` at a concrete input:
a WRONG run with no coverage property survives reconciliation unchanged. -/
theorem C1_witness :
    (("t", ({ name := "t", status := some "true",
              category := some "wrong" } : Run)) ∈
      [("t", ({ name := "t", status := some "true",
                category := some "wrong" } : Run))]) :=
  C1_amended_noncorrect_left_unchanged
    { name := "X", runs := [{ name := "t", status := some "true",
                              category := some "wrong" }] }
    [] [] [] _ "t" _
    (by rfl) (by decide) (by decide) (by decide) (by decide) (by decide)

/-! ## Claim C5 -/

/-- C5 counterexample: one rejecting linter does **not** override all later
evidence.  The first linter rejects the witness (its own pairwise result is
`("witness invalid (true)", error)`), but a second linter whose status
matches the verifier overwrites that verdict, and the final result is
CORRECT — processing did not stop at the rejecting linter. -/
theorem C5_counterexample :
    get_validation_result
      { name := "t", status := some "true", category := some CATEGORY_CORRECT }
      []
      [{ name := "LA",
         runs := [{ name := "t", status := some "ERROR (invalid witness syntax)" }] },
       { name := "LB", runs := [{ name := "t", status := some "true" }] }]
      "true" CATEGORY_CORRECT
      = some (some "true", some CATEGORY_CORRECT, "true", CATEGORY_CORRECT,
          { name := "t", status := some "true", category := some CATEGORY_CORRECT })
    ∧ get_validator_linter_result
        (some { name := "t", status := some "ERROR (invalid witness syntax)" })
        { name := "t", status := some "true", category := some CATEGORY_CORRECT }
        = some ("witness invalid (true)", CATEGORY_ERROR)
    ∧ some CATEGORY_CORRECT ≠ some CATEGORY_ERROR := by
  exact ⟨by rfl, by rfl, by decide⟩

/-- C5 (amended): the linter loop adopts each linter's own reconciliation
result only while no earlier linter produced a non-error verdict (so a later
accepting linter overrides an earlier rejection); only when the verdict
adopted after **all** linters is ERROR does processing stop: the linter
result is returned unchanged and the validators are never consulted. -/
theorem C5_amended_linter_policy :
    (∀ (verifier : Run) (linters v1 v2 : List BenchmarkRuns)
        (sfv cfv : String) (sw : Option String),
      linterPhase verifier linters (none, none) = some (sw, some CATEGORY_ERROR) →
      get_validation_result verifier v1 linters sfv cfv
        = some (sw, some CATEGORY_ERROR, sfv, cfv, verifier)
      ∧ get_validation_result verifier v1 linters sfv cfv
        = get_validation_result verifier v2 linters sfv cfv)
    ∧ (∀ (verifier : Run) (linterSet : BenchmarkRuns) (rest : List BenchmarkRuns)
        (acc : Option String × Option String) (lrun : Run) (res : String × String),
      acc.2 = none ∨ acc.2 = some CATEGORY_ERROR →
      lookupRun linterSet verifier.name = some lrun →
      get_validator_linter_result (some lrun) verifier = some res →
      linterPhase verifier (linterSet :: rest) acc
        = linterPhase verifier rest (some res.1, some res.2))
    ∧ (∀ (verifier : Run) (linters : List BenchmarkRuns)
        (acc out : Option String × Option String) (c : String),
      linterPhase verifier linters acc = some out →
      acc.2 = some c → c ≠ CATEGORY_ERROR → out = acc) := by
  refine ⟨?_, linterPhase_adopt, linterPhase_preserved⟩
  intro verifier linters v1 v2 sfv cfv sw hl
  have h : ∀ (v : List BenchmarkRuns),
      get_validation_result verifier v linters sfv cfv
        = some (sw, some CATEGORY_ERROR, sfv, cfv, verifier) := by
    intro v
    rw [get_validation_result, hl]
    simp
  exact ⟨h v1, (h v1).trans (h v2).symm⟩

/-- Witness for `C5_amended_linter_policy` at a concrete input: a single
rejecting linter's verdict is returned and an arbitrary validator set is
ignored. -/
theorem C5_witness :
    get_validation_result
      { name := "t", status := some "true", category := some CATEGORY_CORRECT }
      [{ name := "V", runs := [{ name := "t", status := some "whatever" }] }]
      [{ name := "LA",
         runs := [{ name := "t", status := some "ERROR (invalid witness syntax)" }] }]
      "true" CATEGORY_CORRECT
      = some (some "witness invalid (true)", some CATEGORY_ERROR, "true",
          CATEGORY_CORRECT,
          { name := "t", status := some "true", category := some CATEGORY_CORRECT }) :=
  (C5_amended_linter_policy.1
    { name := "t", status := some "true", category := some CATEGORY_CORRECT }
    [{ name := "LA",
       runs := [{ name := "t", status := some "ERROR (invalid witness syntax)" }] }]
    [{ name := "V", runs := [{ name := "t", status := some "whatever" }] }]
    [] "true" CATEGORY_CORRECT (some "witness invalid (true)") (by rfl)).1

/-! ## Claim C6 -/

/-- C6 counterexample: a linter whose run set has no run for the task is
*skipped* by `get_validation_result` (the reconciliation result is the same
as with no linter evidence at all), not treated as
`("validation run missing", error)`. -/
theorem C6_counterexample :
    get_validation_result
      { name := "t", status := some "true", category := some CATEGORY_CORRECT }
      [] [{ name := "L", runs := [] }] "true" CATEGORY_CORRECT
      = some (none, none, "true", CATEGORY_CORRECT,
          { name := "t", status := some "true", category := some CATEGORY_CORRECT })
    ∧ (none : Option String) ≠ some "validation run missing" := by
  exact ⟨by rfl, by decide⟩

/-- C6 (amended): the *pairwise* function `get_validator_linter_result` does
map a missing candidate run to `("validation run missing", error)`
(fail-closed at that level), but the reconciliation loop
`get_validation_result` never reaches it for a linter without a run for the
task: such a linter is skipped and contributes nothing. -/
theorem C6_amended_missing_linter_skipped :
    (∀ verification_run : Run,
      get_validator_linter_result none verification_run
        = some ("validation run missing", CATEGORY_ERROR))
    ∧ (∀ (verifier : Run) (validators : List BenchmarkRuns)
        (linterSet : BenchmarkRuns) (rest : List BenchmarkRuns) (sfv cfv : String),
      lookupRun linterSet verifier.name = none →
      get_validation_result verifier validators (linterSet :: rest) sfv cfv
        = get_validation_result verifier validators rest sfv cfv) := by
  refine ⟨fun _ => rfl, ?_⟩
  intro verifier validators linterSet rest sfv cfv h
  rw [get_validation_result, get_validation_result,
    linterPhase_skip verifier linterSet rest (none, none) h]

/-- Witness for `C6_amended_missing_linter_skipped` at a concrete input. -/
theorem C6_witness :
    get_validation_result
      { name := "t", status := some "true", category := some CATEGORY_CORRECT }
      [] [{ name := "L", runs := [{ name := "other", status := some "done" }] }]
      "true" CATEGORY_CORRECT
      = get_validation_result
          { name := "t", status := some "true", category := some CATEGORY_CORRECT }
          [] [] "true" CATEGORY_CORRECT :=
  C6_amended_missing_linter_skipped.2
    { name := "t", status := some "true", category := some CATEGORY_CORRECT }
    [] { name := "L", runs := [{ name := "other", status := some "done" }] }
    [] "true" CATEGORY_CORRECT (by rfl)

/-! ## Claim C10 -/

/-- C10: for an SV-COMP run set whose name matches one of the category
patterns, a run with expected verdict `true` that is not on the
invalid-tasks list is skipped by `adjust_status_category` and left entirely
unchanged (in particular its status and category columns). -/
theorem C10_svcomp_pattern_skip
    (verifier_runs : BenchmarkRuns) (validators linters : List BenchmarkRuns)
    (invalid_tasks : List String) (out : List (String × Run)) (n : String) (r : Run)
    (hadj : adjust_status_category verifier_runs validators linters invalid_tasks
      = some out)
    (hmem : (n, r) ∈ asDictionary verifier_runs.runs)
    (hname : strContainsSub verifier_runs.name "SV-COMP" = true)
    (hpat : svcompPatterns.any (fun p => strContainsSub verifier_runs.name p) = true)
    (hexp : r.expectedVerdict = some "true")
    (hinv : r.name ∉ invalid_tasks) :
    (n, r) ∈ out := by
  rw [adjust_status_category] at hadj
  obtain ⟨b, hb, hfb⟩ := mapM_option_mem _ _ _ hadj (n, r) hmem
  have har : adjustRun verifier_runs.name validators linters invalid_tasks r
      = some r := by
    rw [adjustRun, if_neg hinv, if_pos ⟨hname, hpat, hexp⟩]
  rw [har] at hfb
  simp at hfb
  subst hfb
  exact hb

/-- Witness for `C10_svcomp_pattern_skip` at a concrete input: a CORRECT
run with expected verdict `true` in an `SV-COMP…MemSafety` run set is not
modified even though a validator rejects the witness. -/
theorem C10_witness :
    (("t", ({ name := "t", expectedVerdict := some "true",
              status := some "true", category := some "correct" } : Run)) ∈
      [("t", ({ name := "t", expectedVerdict := some "true",
                status := some "true", category := some "correct" } : Run))]) :=
  C10_svcomp_pattern_skip
    { name := "SV-COMP25_MemSafety",
      runs := [{ name := "t", expectedVerdict := some "true",
                 status := some "true", category := some "correct" }] }
    [{ name := "V",
       runs := [{ name := "t", status := some "ERROR (invalid witness syntax)" }] }]
    [] [] _ "t" _
    (by rfl) (by decide) (by decide) (by decide) (by decide) (by decide)

/-! ## `utils.py`: `CategoryData` and `CategoryResult` -/

/-- Model of `utils.CategoryData`: one accumulated measurement.  The five
constructor arguments are stored; `success_true` / `unconfirmed_true` are
derived attributes.  `sequence` is `none` when constructed with the default
`sequence=None`. -/
structure CategoryData where
  total : ℚ
  success : ℚ
  success_false : ℚ
  unconfirmed : ℚ
  unconfirmed_false : ℚ
  sequence : Option (List ℚ) := none
deriving Repr, DecidableEq

/-- Derived attribute `success_true = success - success_false`. -/
def CategoryData.success_true (d : CategoryData) : ℚ := d.success - d.success_false

/-- Derived attribute `unconfirmed_true = unconfirmed - unconfirmed_false`. -/
def CategoryData.unconfirmed_true (d : CategoryData) : ℚ :=
  d.unconfirmed - d.unconfirmed_false

/-- Model of `CategoryData.__add__`: component-wise sums, sequences are
concatenated; adding when a sequence is `None` raises `TypeError`
(modelled as `none`). -/
def CategoryData.add (a b : CategoryData) : Option CategoryData :=
  match a.sequence, b.sequence with
  | some sa, some sb =>
    some ⟨a.total + b.total, a.success + b.success,
          a.success_false + b.success_false, a.unconfirmed + b.unconfirmed,
          a.unconfirmed_false + b.unconfirmed_false, some (sa ++ sb)⟩
  | _, _ => none

/-- Model of `utils.CategoryResult`.  Quantile-plot points are
`(score, value, status)` triples; `results_file` is `None` or a string. -/
structure CategoryResult where
  score : ℚ
  score_false : ℚ
  cputime : CategoryData
  cpuenergy : CategoryData
  correct_false : Int
  correct_true : Int
  correct_unconfirmed_false : Int
  correct_unconfirmed_true : Int
  incorrect_false : Int
  incorrect_true : Int
  qplot_cputime : List (ℚ × ℚ × String)
  qplot_cpuenergy : List (ℚ × ℚ × String)
  results_file : Option String
deriving Repr, DecidableEq

/-- Model of `CategoryResult.__add__`: field-wise sums; the qplot lists and
the `results_file` strings are concatenated; `None + …` on `results_file`
or on a measurement sequence raises `TypeError` (modelled as `none`). -/
def CategoryResult.add (a b : CategoryResult) : Option CategoryResult :=
  match a.cputime.add b.cputime, a.cpuenergy.add b.cpuenergy,
      a.results_file, b.results_file with
  | some ct, some ce, some fa, some fb =>
    some ⟨a.score + b.score, a.score_false + b.score_false, ct, ce,
          a.correct_false + b.correct_false, a.correct_true + b.correct_true,
          a.correct_unconfirmed_false + b.correct_unconfirmed_false,
          a.correct_unconfirmed_true + b.correct_unconfirmed_true,
          a.incorrect_false + b.incorrect_false,
          a.incorrect_true + b.incorrect_true,
          a.qplot_cputime ++ b.qplot_cputime,
          a.qplot_cpuenergy ++ b.qplot_cpuenergy,
          some (fa ++ fb)⟩
  | _, _, _, _ => none

theorem String.append_assoc' (a b c : String) : a ++ b ++ c = a ++ (b ++ c) := by
  obtain ⟨la⟩ := a; obtain ⟨lb⟩ := b; obtain ⟨lc⟩ := c
  show String.mk (la ++ lb ++ lc) = String.mk (la ++ (lb ++ lc))
  rw [List.append_assoc]

/-- `CategoryData.__add__` is associative (both sides fail on the same
inputs). -/
theorem CategoryData_add_assoc (a b c : CategoryData) :
    (a.add b).bind (·.add c) = (b.add c).bind (a.add ·) := by
  obtain ⟨ta, sa, sfa, ua, ufa, qa⟩ := a
  obtain ⟨tb, sb, sfb, ub, ufb, qb⟩ := b
  obtain ⟨tc, sc, sfc, uc, ufc, qc⟩ := c
  cases qa <;> cases qb <;> cases qc <;>
    simp [CategoryData.add, add_assoc]

set_option maxHeartbeats 1600000 in
/-- `CategoryResult.__add__` is associative (both sides fail on the same
inputs). -/
theorem CategoryResult_add_assoc (a b c : CategoryResult) :
    (a.add b).bind (·.add c) = (b.add c).bind (a.add ·) := by
  obtain ⟨xa, ya, ⟨ta, sa, sfa, ua, ufa, qa⟩, ⟨ta2, sa2, sfa2, ua2, ufa2, qa2⟩,
    c1a, c2a, c3a, c4a, c5a, c6a, pa, pa2, fa⟩ := a
  obtain ⟨xb, yb, ⟨tb, sb, sfb, ub, ufb, qb⟩, ⟨tb2, sb2, sfb2, ub2, ufb2, qb2⟩,
    c1b, c2b, c3b, c4b, c5b, c6b, pb, pb2, fb⟩ := b
  obtain ⟨xc, yc, ⟨tc, sc, sfc, uc, ufc, qc⟩, ⟨tc2, sc2, sfc2, uc2, ufc2, qc2⟩,
    c1c, c2c, c3c, c4c, c5c, c6c, pc, pc2, fc⟩ := c
  cases qa <;> cases qb <;> cases qc <;> cases qa2 <;> cases qb2 <;> cases qc2 <;>
    cases fa <;> cases fb <;> cases fc <;>
    first
      | rfl
      | simp [CategoryResult.add, CategoryData.add, add_assoc, String.append_assoc']

/-- The numeric fields of `CategoryData.__add__` commute. -/
theorem CategoryData_add_numeric_comm (a b : CategoryData) :
    (a.add b).map (·.total) = (b.add a).map (·.total)
    ∧ (a.add b).map (·.success) = (b.add a).map (·.success)
    ∧ (a.add b).map (·.success_false) = (b.add a).map (·.success_false)
    ∧ (a.add b).map (·.unconfirmed) = (b.add a).map (·.unconfirmed)
    ∧ (a.add b).map (·.unconfirmed_false) = (b.add a).map (·.unconfirmed_false) := by
  obtain ⟨ta, sa, sfa, ua, ufa, qa⟩ := a
  obtain ⟨tb, sb, sfb, ub, ufb, qb⟩ := b
  cases qa <;> cases qb <;> simp [CategoryData.add, add_comm]

/-- The numeric fields of `CategoryResult.__add__` commute. -/
theorem CategoryResult_add_numeric_comm (a b : CategoryResult) :
    (a.add b).map (·.score) = (b.add a).map (·.score)
    ∧ (a.add b).map (·.score_false) = (b.add a).map (·.score_false)
    ∧ (a.add b).map (·.correct_false) = (b.add a).map (·.correct_false)
    ∧ (a.add b).map (·.correct_true) = (b.add a).map (·.correct_true)
    ∧ (a.add b).map (·.correct_unconfirmed_false)
        = (b.add a).map (·.correct_unconfirmed_false)
    ∧ (a.add b).map (·.correct_unconfirmed_true)
        = (b.add a).map (·.correct_unconfirmed_true)
    ∧ (a.add b).map (·.incorrect_false) = (b.add a).map (·.incorrect_false)
    ∧ (a.add b).map (·.incorrect_true) = (b.add a).map (·.incorrect_true) := by
  obtain ⟨xa, ya, ⟨ta, sa, sfa, ua, ufa, qa⟩, ⟨ta2, sa2, sfa2, ua2, ufa2, qa2⟩,
    c1a, c2a, c3a, c4a, c5a, c6a, pa, pa2, fa⟩ := a
  obtain ⟨xb, yb, ⟨tb, sb, sfb, ub, ufb, qb⟩, ⟨tb2, sb2, sfb2, ub2, ufb2, qb2⟩,
    c1b, c2b, c3b, c4b, c5b, c6b, pb, pb2, fb⟩ := b
  cases qa <;> cases qb <;> cases qa2 <;> cases qb2 <;> cases fa <;> cases fb <;>
    simp [CategoryResult.add, CategoryData.add, add_comm]

/-! ## Claim C8 -/

/-- C8 counterexample: `CategoryData.__add__` is **not** commutative — the
measurement sequences are concatenated in argument order, so `a + b` and
`b + a` differ on the `sequence` field. -/
theorem C8_counterexample :
    (CategoryData.add ⟨0, 0, 0, 0, 0, some [1]⟩ ⟨0, 0, 0, 0, 0, some [2]⟩).map
        (·.sequence)
      = some (some [(1 : ℚ), 2])
    ∧ (CategoryData.add ⟨0, 0, 0, 0, 0, some [2]⟩ ⟨0, 0, 0, 0, 0, some [1]⟩).map
        (·.sequence)
      = some (some [(2 : ℚ), 1])
    ∧ some (some [(1 : ℚ), 2]) ≠ some (some [(2 : ℚ), 1]) := by
  refine ⟨rfl, rfl, by norm_num⟩

/-- C8 (amended): `CategoryData.__add__` and `CategoryResult.__add__` are
associative, and commutative on every numeric field; they are **not**
commutative on the order-concatenated `sequence`, qplot and `results_file`
fields. -/
theorem C8_add_assoc_and_numeric_comm :
    (∀ a b c : CategoryData, (a.add b).bind (·.add c) = (b.add c).bind (a.add ·))
    ∧ (∀ a b c : CategoryResult, (a.add b).bind (·.add c) = (b.add c).bind (a.add ·))
    ∧ (∀ a b : CategoryData,
        (a.add b).map (·.total) = (b.add a).map (·.total)
        ∧ (a.add b).map (·.success) = (b.add a).map (·.success)
        ∧ (a.add b).map (·.success_false) = (b.add a).map (·.success_false)
        ∧ (a.add b).map (·.unconfirmed) = (b.add a).map (·.unconfirmed)
        ∧ (a.add b).map (·.unconfirmed_false) = (b.add a).map (·.unconfirmed_false))
    ∧ (∀ a b : CategoryResult,
        (a.add b).map (·.score) = (b.add a).map (·.score)
        ∧ (a.add b).map (·.score_false) = (b.add a).map (·.score_false)
        ∧ (a.add b).map (·.correct_false) = (b.add a).map (·.correct_false)
        ∧ (a.add b).map (·.correct_true) = (b.add a).map (·.correct_true)
        ∧ (a.add b).map (·.correct_unconfirmed_false)
            = (b.add a).map (·.correct_unconfirmed_false)
        ∧ (a.add b).map (·.correct_unconfirmed_true)
            = (b.add a).map (·.correct_unconfirmed_true)
        ∧ (a.add b).map (·.incorrect_false) = (b.add a).map (·.incorrect_false)
        ∧ (a.add b).map (·.incorrect_true) = (b.add a).map (·.incorrect_true)) :=
  ⟨CategoryData_add_assoc, CategoryResult_add_assoc,
   CategoryData_add_numeric_comm, CategoryResult_add_numeric_comm⟩

/-! ## `mkAnaScores.py`: `_get_scores_data` -/

/-- Model of `utils.is_tool_status_false`. -/
def is_tool_status_false (status : String) : Bool := strStartsWith status "false"

/-- One run result as consumed by `_get_scores_data` and `get_score`:
`status` and `category` values, the score computed by the external table
generator (`run_result.score`), and the explicit `score` column when
present (outer `none` = no score column, inner value = the column value
already converted to a number — the XML string parsing belongs to the
external tablegenerator, spec §6). -/
structure ScoreRun where
  status : String
  category : String
  tg_score : Option ℚ := none
  listed_score : Option (Option ℚ) := none
deriving Repr, DecidableEq

/-- Model of `get_score`: an explicit `score` column always overrides the
table-generator score; a missing score is `None` for SV-COMP and `0` for
other competitions. -/
def get_score (r : ScoreRun) (isSVCOMP : Bool) : Option ℚ :=
  let score : Option ℚ :=
    match r.listed_score with
    | some listed => listed
    | none => r.tg_score
  match score with
  | none => if isSVCOMP then none else some 0
  | some s => some s

/-- The accumulator of `_get_scores_data`. -/
structure ScoresData where
  score : ℚ
  score_false : ℚ
  correct_true : Nat
  correct_false : Nat
  correct_unconfirmed_true : Nat
  correct_unconfirmed_false : Nat
  incorrect_true : Nat
  incorrect_false : Nat
deriving Repr, DecidableEq

/-- The special termination category excluded from the `score_false`
accumulation and assertion. -/
def terminationSpecialCategory : String :=
  "termination.SoftwareSystems-DeviceDriversLinux64-Termination"

/-- One iteration of the loop of `_get_scores_data` (a run with a missing
score is skipped entirely). -/
def scoresStep (category : String) (isSVCOMP : Bool) (acc : ScoresData)
    (r : ScoreRun) : ScoresData :=
  match get_score r isSVCOMP with
  | none => acc
  | some s =>
    let acc := { acc with score := acc.score + s }
    let acc :=
      if is_tool_status_false r.status ∧ category ≠ terminationSpecialCategory then
        { acc with score_false := acc.score_false + s }
      else acc
    if r.category = CATEGORY_CORRECT then
      if is_tool_status_false r.status then
        { acc with correct_false := acc.correct_false + 1 }
      else
        { acc with correct_true := acc.correct_true + 1 }
    else if r.category = CATEGORY_CORRECT_UNCONFIRMED then
      if is_tool_status_false r.status then
        { acc with correct_unconfirmed_false := acc.correct_unconfirmed_false + 1 }
      else
        { acc with correct_unconfirmed_true := acc.correct_unconfirmed_true + 1 }
    else if r.category = CATEGORY_WRONG then
      if is_tool_status_false r.status then
        { acc with incorrect_false := acc.incorrect_false + 1 }
      else
        { acc with incorrect_true := acc.incorrect_true + 1 }
    else acc

/-- The `expected_score` of the first assertion of `_get_scores_data`. -/
def expectedScore (d : ScoresData) : ℚ :=
  d.correct_false * 1 + d.correct_true * 2
    + d.correct_unconfirmed_true * 0 + d.correct_unconfirmed_false * 0
    + d.incorrect_false * (-16) + d.incorrect_true * (-32)

/-- The `expected_score` of the second assertion of `_get_scores_data`. -/
def expectedScoreFalse (d : ScoresData) : ℚ :=
  d.correct_false * 1 + d.correct_unconfirmed_false * 0
    + d.incorrect_false * (-16)

/-- Model of `_get_scores_data`: fold the runs, then check the two scoring
assertions; `none` models an `AssertionError`. -/
def _get_scores_data (runs : List ScoreRun) (category : String)
    (isSVCOMP : Bool) : Option ScoresData :=
  let d := runs.foldl (scoresStep category isSVCOMP) ⟨0, 0, 0, 0, 0, 0, 0, 0⟩
  if isSVCOMP = true ∧ d.score ≠ expectedScore d then none
  else if category ≠ terminationSpecialCategory
      ∧ isSVCOMP = true ∧ d.score_false ≠ expectedScoreFalse d then none
  else some d

/-! ## Claim C2 -/

/-- C2 counterexample: for the special termination category, the per-run
scores of false-status tasks are excluded from `score_false` while
`correct_false` still counts them, so the produced data violates
`score_false = correct_false*1 + incorrect_false*(-16)` (the assertion for
`score_false` is skipped exactly for this category). -/
theorem C2_counterexample :
    _get_scores_data
        [{ status := "false(termination)", category := "correct",
           listed_score := some (some 1) }]
        terminationSpecialCategory true
      = some ⟨1, 0, 0, 1, 0, 0, 0, 0⟩
    ∧ (0 : ℚ) ≠ 1 * 1 + 0 * (-16) := by
  constructor
  · simp [_get_scores_data, scoresStep, get_score, is_tool_status_false,
      strStartsWith, terminationSpecialCategory, CATEGORY_CORRECT,
      expectedScore, expectedScoreFalse]
  · norm_num

/-- C2 (amended): for the verification track (SV-COMP), every `ScoresData`
that `_get_scores_data` produces satisfies
`score = correct_false*1 + correct_true*2 + incorrect_false*(-16) +
incorrect_true*(-32)` (unconfirmed results contributing 0) — this is
enforced by an assertion; the companion identity
`score_false = correct_false*1 + incorrect_false*(-16)` holds for every
category **except** `termination.SoftwareSystems-DeviceDriversLinux64-Termination`,
for which `score_false` excludes the per-run scores altogether. -/
theorem C2_scores_identity (runs : List ScoreRun) (category : String)
    (d : ScoresData)
    (h : _get_scores_data runs category true = some d) :
    d.score = d.correct_false * 1 + d.correct_true * 2
        + d.correct_unconfirmed_true * 0 + d.correct_unconfirmed_false * 0
        + d.incorrect_false * (-16) + d.incorrect_true * (-32)
    ∧ (category ≠ terminationSpecialCategory →
        d.score_false = d.correct_false * 1 + d.correct_unconfirmed_false * 0
          + d.incorrect_false * (-16)) := by
  rw [_get_scores_data] at h
  split at h
  · exact absurd h (by simp)
  · rename_i h1
    split at h
    · exact absurd h (by simp)
    · rename_i h2
      simp only [Option.some.injEq] at h
      subst h
      push_neg at h1 h2
      refine ⟨h1 rfl, fun hcat => ?_⟩
      exact (h2 hcat) rfl

/-- Witness for `C2_scores_identity` at a concrete input: a single confirmed
false task with explicit score 1. -/
theorem C2_witness :
    ((⟨1, 1, 0, 1, 0, 0, 0, 0⟩ : ScoresData)).score
      = ((⟨1, 1, 0, 1, 0, 0, 0, 0⟩ : ScoresData)).correct_false * 1
        + ((⟨1, 1, 0, 1, 0, 0, 0, 0⟩ : ScoresData)).correct_true * 2
        + ((⟨1, 1, 0, 1, 0, 0, 0, 0⟩ : ScoresData)).correct_unconfirmed_true * 0
        + ((⟨1, 1, 0, 1, 0, 0, 0, 0⟩ : ScoresData)).correct_unconfirmed_false * 0
        + ((⟨1, 1, 0, 1, 0, 0, 0, 0⟩ : ScoresData)).incorrect_false * (-16)
        + ((⟨1, 1, 0, 1, 0, 0, 0, 0⟩ : ScoresData)).incorrect_true * (-32)
    ∧ ((⟨1, 1, 0, 1, 0, 0, 0, 0⟩ : ScoresData)).score_false
      = ((⟨1, 1, 0, 1, 0, 0, 0, 0⟩ : ScoresData)).correct_false * 1
        + ((⟨1, 1, 0, 1, 0, 0, 0, 0⟩ : ScoresData)).correct_unconfirmed_false * 0
        + ((⟨1, 1, 0, 1, 0, 0, 0, 0⟩ : ScoresData)).incorrect_false * (-16) := by
  have h := C2_scores_identity
    [{ status := "false(unreach-call)", category := "correct",
       listed_score := some (some 1) }]
    "c.ReachSafety" ⟨1, 1, 0, 1, 0, 0, 0, 0⟩
    (by simp [_get_scores_data, scoresStep, get_score, is_tool_status_false,
      strStartsWith, terminationSpecialCategory, CATEGORY_CORRECT,
      expectedScore, expectedScoreFalse])
  exact ⟨h.1, h.2 (by decide)⟩

/-! ## `mkAnaScores.py`: `handle_meta_category` -/

/-- Python `sum(...)` over rationals (left fold starting at 0). -/
def pySum (l : List ℚ) : ℚ := l.foldl (· + ·) 0

/-- Python `sum(...)` over integers (left fold starting at 0). -/
def pySumInt (l : List Int) : Int := l.foldl (· + ·) 0

/-- Model of `utils.category_sum`. -/
def category_sum (vs : List ℚ) : ℚ := pySum vs

/-- Model of `utils.accumulate_data`: sums each component over the list
(`v.x or 0` is the identity on our typed measurements); the result carries
no sequence (`sequence=None`). -/
def accumulate_data (data : List CategoryData) : CategoryData :=
  ⟨category_sum (data.map (·.total)), category_sum (data.map (·.success)),
   category_sum (data.map (·.success_false)),
   category_sum (data.map (·.unconfirmed)),
   category_sum (data.map (·.unconfirmed_false)), none⟩

/-- Model of `utils.combine_qplots`: chain the qplot lists and divide each
score by the number of categories (0 when that number is 0). -/
def combine_qplots (qplots : List (List (ℚ × ℚ × String)))
    (category_amount : Nat) : List (ℚ × ℚ × String) :=
  (qplots.flatten).map (fun t =>
    (if category_amount > 0 then t.1 / (category_amount : ℚ) else 0, t.2.1, t.2.2))

/-- Model of `utils.VerificationCategory` (name, task counts, possible
scores, and the participant → `CategoryResult` map as an association
list). -/
structure VerificationCategory where
  name : String
  tasks : Int
  tasks_true : Int
  tasks_false : Int
  possible_score : ℚ
  possible_score_false : ℚ
  results : List (String × CategoryResult) := []
deriving Repr, DecidableEq

/-- Lookup in the `results` map of a category. -/
def lookupResult (c : VerificationCategory) (v : String) : Option CategoryResult :=
  (c.results.find? (fun p => p.1 == v)).map (·.2)

/-- One meta-category entry of the category-structure YAML. -/
structure MetaCategoryDef where
  verifiers : List String
  categories : List String
deriving Repr, DecidableEq

/-- The parts of the category-structure info that `handle_meta_category`
reads. -/
structure CategoryInfo where
  categories : List (String × MetaCategoryDef)
  validation_only : List String
  demo_categories : List String
deriving Repr, DecidableEq

/-- Model of `get_categories`: meta-categories whose name contains no
validation-only name as a substring (the Python `k not in c` is a substring
test). -/
def get_categories (info : CategoryInfo) : List (String × MetaCategoryDef) :=
  info.categories.filter
    (fun p => info.validation_only.all (fun k => ¬ strContainsSub p.1 k))

/-- Lookup in an association list of processed categories. -/
def lookupProcessed (processed : List (String × VerificationCategory))
    (c : String) : Option VerificationCategory :=
  (processed.find? (fun p => p.1 == c)).map (·.2)

/-- The `subcategories` dict comprehension of `handle_meta_category`:
demo categories are skipped before the `processed_categories[sub]` access
(short-circuit), a missing processed entry raises `KeyError` (`none`), and
only categories with a nonzero valid-task count are kept. -/
def metaSubcategories (names : List String) (demo : List String)
    (processed : List (String × VerificationCategory)) :
    Option (List (String × VerificationCategory)) :=
  match names with
  | [] => some []
  | c :: rest =>
    if demo.contains c then metaSubcategories rest demo processed
    else
      match lookupProcessed processed c with
      | none => none
      | some cat =>
        if cat.tasks_true + cat.tasks_false ≠ 0 then
          (metaSubcategories rest demo processed).map ((c, cat) :: ·)
        else
          metaSubcategories rest demo processed

/-- The per-participant body of the verifier loop of
`handle_meta_category`: `none` when the participant is missing from some
sub-category (it is then skipped with a diagnostic). -/
def metaVerifierResult (subcategories : List (String × VerificationCategory))
    (category_amount : Nat) (meta_category : String)
    (tasks_true tasks_false : Int) (verifier : String) : Option CategoryResult :=
  let subcategories_info := subcategories.map (·.2)
  let subcategories_available :=
    subcategories_info.filter (fun c => (lookupResult c verifier).isSome)
  if subcategories_available.length < subcategories.length then none
  else
    let relevant_results :=
      subcategories_available.filterMap (fun c => lookupResult c verifier)
    let sum_of_avg_scores := pySum (subcategories_info.filterMap (fun c =>
      match lookupResult c verifier with
      | some r =>
        if c.tasks_true + c.tasks_false ≠ 0 then
          some (r.score / ((c.tasks_true + c.tasks_false : Int) : ℚ))
        else none
      | none => none))
    let score := sum_of_avg_scores / (category_amount : ℚ)
        * ((tasks_true + tasks_false : Int) : ℚ)
    -- `if name in "SoftwareSystems"` tests `name` as a substring of the
    -- literal "SoftwareSystems"
    let sum_of_avg_scores_false := pySum (subcategories.filterMap (fun p =>
      let tasks_in_subcategory :=
        if strContainsSub "SoftwareSystems" p.1 then
          p.2.tasks_true + p.2.tasks_false - 267
        else p.2.tasks_true + p.2.tasks_false
      match lookupResult p.2 verifier with
      | some r =>
        if tasks_in_subcategory ≠ 0 then
          some (r.score_false / ((tasks_in_subcategory : Int) : ℚ))
        else none
      | none => none))
    -- `normalize_score_false` (division by zero cannot be modelled as a
    -- raise here; the SoftwareSystems branch with one sub-category would
    -- raise in Python and yields 0 here — not relevant to the claims)
    let score_false :=
      if meta_category = "SoftwareSystems" then
        sum_of_avg_scores_false / ((category_amount : ℚ) - 1)
          * ((tasks_true + tasks_false - 267 : Int) : ℚ)
      else
        sum_of_avg_scores_false / (category_amount : ℚ)
          * ((tasks_true + tasks_false : Int) : ℚ)
    let cputime_data := accumulate_data (relevant_results.map (·.cputime))
    let cpuenergy_data := accumulate_data (relevant_results.map (·.cpuenergy))
    let sumCount := fun (f : CategoryResult → Int) =>
      pySumInt (subcategories_info.filterMap
        (fun c => (lookupResult c verifier).map f))
    some ⟨score, score_false, cputime_data, cpuenergy_data,
      sumCount (·.correct_false), sumCount (·.correct_true),
      sumCount (·.correct_unconfirmed_false), sumCount (·.correct_unconfirmed_true),
      sumCount (·.incorrect_false), sumCount (·.incorrect_true),
      combine_qplots (subcategories_info.filterMap
        (fun c => (lookupResult c verifier).map (·.qplot_cputime))) category_amount,
      combine_qplots (subcategories_info.filterMap
        (fun c => (lookupResult c verifier).map (·.qplot_cpuenergy))) category_amount,
      none⟩

/-- Model of `handle_meta_category`.  `none` models a raised exception
(`KeyError` for a missing meta-category or processed sub-category,
`ZeroDivisionError` when no sub-category survives filtering). -/
def handle_meta_category (meta_category : String) (info : CategoryInfo)
    (processed : List (String × VerificationCategory)) :
    Option VerificationCategory :=
  match ((get_categories info).find? (fun p => p.1 == meta_category)).map (·.2) with
  | none => none
  | some mdef =>
    let subverifiers :=
      if info.validation_only.contains meta_category then [] else mdef.verifiers
    match metaSubcategories
        (mdef.categories.filter (fun c => ¬ info.validation_only.contains c))
        info.demo_categories processed with
    | none => none
    | some subcategories =>
      if subcategories = [] then none  -- normalize_score divides by the count
      else
        let subcategories_info := subcategories.map (·.2)
        let category_amount := subcategories.length
        let tasks_total := pySumInt (subcategories_info.map (·.tasks))
        let tasks_true :=
          (if meta_category = "FalsificationOverall" then -91 else 0)
            + pySumInt (subcategories_info.map (·.tasks_true))
        let tasks_false :=
          (if meta_category = "FalsificationOverall" then -176 else 0)
            + pySumInt (subcategories_info.map (·.tasks_false))
        let possible_score :=
          pySum (subcategories_info.filterMap (fun c =>
            if c.tasks_true + c.tasks_false ≠ 0 then
              some (c.possible_score / ((c.tasks_true + c.tasks_false : Int) : ℚ))
            else none))
            / (category_amount : ℚ) * ((tasks_true + tasks_false : Int) : ℚ)
        let possible_score_false_sum :=
          pySum (subcategories.filterMap (fun p =>
            let tasks_in_subcategory :=
              if strContainsSub "SoftwareSystems" p.1 then
                p.2.tasks_true + p.2.tasks_false - 267
              else p.2.tasks_true + p.2.tasks_false
            if tasks_in_subcategory ≠ 0 then
              some (p.2.possible_score_false / ((tasks_in_subcategory : Int) : ℚ))
            else none))
        let possible_score_false :=
          if meta_category = "SoftwareSystems" then
            possible_score_false_sum / ((category_amount : ℚ) - 1)
              * ((tasks_true + tasks_false - 267 : Int) : ℚ)
          else
            possible_score_false_sum / (category_amount : ℚ)
              * ((tasks_true + tasks_false : Int) : ℚ)
        let results := subverifiers.foldl (fun acc verifier =>
          match metaVerifierResult subcategories category_amount meta_category
              tasks_true tasks_false verifier with
          | none => acc
          | some r => acc ++ [(verifier, r)]) []
        some ⟨meta_category, tasks_total, tasks_true, tasks_false,
              possible_score, possible_score_false, results⟩

/-- `pySum` agrees with `List.sum`. -/
theorem pySum_eq_sum (l : List ℚ) : pySum l = l.sum := by
  rw [pySum, List.sum_eq_foldl]

/-- Every sub-category selected by `metaSubcategories` has a nonzero
valid-task count. -/
theorem metaSubcategories_tasks_ne (names demo : List String)
    (processed : List (String × VerificationCategory))
    (subs : List (String × VerificationCategory))
    (h : metaSubcategories names demo processed = some subs) :
    ∀ p ∈ subs, p.2.tasks_true + p.2.tasks_false ≠ 0 := by
  induction names generalizing subs with
  | nil =>
    rw [metaSubcategories] at h
    obtain rfl := Option.some.inj h
    intro p hp; exact absurd hp (by simp)
  | cons c rest ih =>
    rw [metaSubcategories] at h
    split at h
    · exact ih subs h
    · split at h
      · exact absurd h (by simp)
      · rename_i cat hcat
        split at h
        · rename_i hne
          cases hrest : metaSubcategories rest demo processed with
          | none => rw [hrest] at h; exact absurd h (by simp)
          | some subs2 =>
            rw [hrest] at h
            simp only [Option.map_some', Option.some.injEq] at h
            subst h
            intro p hp
            rcases List.mem_cons.mp hp with rfl | hmem
            · exact hne
            · exact ih subs2 hrest p hmem
        · exact ih subs h

/-- Auxiliary induction for `metaResults_mem`. -/
theorem metaResults_mem_aux (f : String → Option CategoryResult) (v : String)
    (r : CategoryResult) :
    ∀ (subverifiers : List String) (acc : List (String × CategoryResult)),
      (v, r) ∈ subverifiers.foldl (fun acc w =>
        match f w with
        | none => acc
        | some r2 => acc ++ [(w, r2)]) acc →
      (v, r) ∈ acc ∨ f v = some r := by
  intro subverifiers
  induction subverifiers with
  | nil => intro acc hacc; exact Or.inl hacc
  | cons w rest ih =>
    intro acc hacc
    rw [List.foldl_cons] at hacc
    cases hf : f w with
    | none => simp only [hf] at hacc; exact ih acc hacc
    | some r2 =>
      simp only [hf] at hacc
      rcases ih (acc ++ [(w, r2)]) hacc with h3 | h3
      · rcases List.mem_append.mp h3 with h4 | h4
        · exact Or.inl h4
        · simp only [List.mem_singleton, Prod.mk.injEq] at h4
          obtain ⟨rfl, rfl⟩ := h4
          exact Or.inr hf
      · exact Or.inr h3

/-- Every entry of the verifier-results fold comes from
`metaVerifierResult`. -/
theorem metaResults_mem (subverifiers : List String)
    (f : String → Option CategoryResult) (v : String) (r : CategoryResult)
    (h : (v, r) ∈ subverifiers.foldl (fun acc w =>
      match f w with
      | none => acc
      | some r2 => acc ++ [(w, r2)]) []) :
    f v = some r := by
  rcases metaResults_mem_aux f v r subverifiers [] h with h3 | h3
  · exact absurd h3 (by simp)
  · exact h3

/-! ## Claim C3 -/

/-- First child category of the C3 instances. -/
def c3catA : VerificationCategory :=
  ⟨"a", 1, 1, 0, 2, 0, []⟩

/-- Second child category of the C3 instances. -/
def c3catB : VerificationCategory :=
  ⟨"b", 1, 1, 0, 2, 0, []⟩

/-- Category info of the C3 instances: one meta-category `M` with children
`a` and `b`. -/
def c3info : CategoryInfo :=
  ⟨[("M", ⟨[], ["a", "b"]⟩)], [], []⟩

/-- C3 counterexample: with two children of one task each and possible
score 2 each, `handle_meta_category` computes
`(2/1 + 2/1) / 2 × (1 + 1) = 4`, while the claimed formula (without the
division by the number of children) gives `(2/1 + 2/1) × (1 + 1) = 8`. -/
theorem C3_counterexample :
    (handle_meta_category "M" c3info [("a", c3catA), ("b", c3catB)]).map
        (·.possible_score)
      = some 4
    ∧ (4 : ℚ) ≠ (2 / 1 + 2 / 1) * (1 + 1) := by
  constructor
  · simp [handle_meta_category, get_categories, metaSubcategories,
      lookupProcessed, c3info, c3catA, c3catB, pySum, pySumInt, strContainsSub,
      infixOfAux]
    norm_num
  · norm_num

/-- `filterMap` with an always-true guard is `map`. -/
theorem filterMap_if_all {α β : Type} (p : α → Prop) [DecidablePred p]
    (f : α → β) (l : List α) (hall : ∀ a ∈ l, p a) :
    l.filterMap (fun a => if p a then some (f a) else none) = l.map f := by
  induction l with
  | nil => rfl
  | cons x xs ih =>
    rw [List.filterMap_cons, if_pos (hall x (by simp)), List.map_cons]
    rw [ih (fun a ha => hall a (by simp [ha]))]

/-- `filterMap` through an `Option` lookup with an always-true guard. -/
theorem filterMap_match_if_all {α β : Type} (p : α → Prop) [DecidablePred p]
    (g : α → Option CategoryResult) (f : α → CategoryResult → β) (l : List α)
    (hall : ∀ a ∈ l, p a) :
    l.filterMap (fun a =>
        match g a with
        | some r => if p a then some (f a r) else none
        | none => none)
      = l.filterMap (fun a => (g a).map (f a)) := by
  induction l with
  | nil => rfl
  | cons x xs ih =>
    rw [List.filterMap_cons, List.filterMap_cons,
      ih (fun a ha => hall a (by simp [ha]))]
    cases hg : g x with
    | none => rfl
    | some r => simp [hall x (by simp)]

/-- C3 (amended): the meta-category possible score equals the sum over the
selected children of `possible_score / child-task-count`, **divided by the
number of selected children**, times `(meta_true + meta_false)`; likewise
each participant's meta-category score is the sum of its per-child average
scores divided by the number of children and multiplied by
`(meta_true + meta_false)`. -/
theorem C3_meta_normalized_scores
    (meta : String) (info : CategoryInfo)
    (processed : List (String × VerificationCategory))
    (mdef : MetaCategoryDef) (subs : List (String × VerificationCategory))
    (cat : VerificationCategory)
    (hdef : ((get_categories info).find? (fun p => p.1 == meta)).map (·.2)
      = some mdef)
    (hsubs : metaSubcategories
        (mdef.categories.filter (fun c => ¬ info.validation_only.contains c))
        info.demo_categories processed = some subs)
    (h : handle_meta_category meta info processed = some cat) :
    cat.possible_score
      = ((subs.map (·.2)).map (fun c =>
            c.possible_score / ((c.tasks_true + c.tasks_false : ℤ) : ℚ))).sum
          / (subs.length : ℚ)
          * (((cat.tasks_true + cat.tasks_false : ℤ)) : ℚ)
    ∧ ∀ v r, (v, r) ∈ cat.results →
        r.score
          = ((subs.map (·.2)).filterMap (fun c =>
                (lookupResult c v).map (fun rr =>
                  rr.score / ((c.tasks_true + c.tasks_false : ℤ) : ℚ)))).sum
              / (subs.length : ℚ)
              * (((cat.tasks_true + cat.tasks_false : ℤ)) : ℚ) := by
  rw [handle_meta_category, hdef] at h
  dsimp only at h
  rw [hsubs] at h
  dsimp only at h
  have hall : ∀ c ∈ subs.map (·.2), c.tasks_true + c.tasks_false ≠ 0 := by
    intro c hc
    obtain ⟨p, hp, rfl⟩ := List.mem_map.mp hc
    exact metaSubcategories_tasks_ne _ _ _ _ hsubs p hp
  split at h
  · exact absurd h (by simp)
  · simp only [Option.some.injEq] at h
    subst h
    constructor
    · show pySum _ / _ * _ = _
      rw [pySum_eq_sum,
        filterMap_if_all (fun c => c.tasks_true + c.tasks_false ≠ 0)
          (fun c => c.possible_score / ((c.tasks_true + c.tasks_false : ℤ) : ℚ))
          (subs.map (·.2)) hall]
    · intro v r hm
      have hf := metaResults_mem _ _ v r hm
      rw [metaVerifierResult] at hf
      split at hf
      · exact absurd hf (by simp)
      · simp only [Option.some.injEq] at hf
        subst hf
        show pySum _ / _ * _ = _
        rw [pySum_eq_sum,
          filterMap_match_if_all (fun c => c.tasks_true + c.tasks_false ≠ 0)
            (fun c => lookupResult c v)
            (fun c rr => rr.score / ((c.tasks_true + c.tasks_false : ℤ) : ℚ))
            (subs.map (·.2)) hall]

/-- Witness for `C3_meta_normalized_scores` at the concrete two-child
meta-category instance. -/
theorem C3_witness :
    (⟨"M", 2, 2, 0, 4, 0, []⟩ : VerificationCategory).possible_score
      = ((([("a", c3catA), ("b", c3catB)]).map (·.2)).map (fun c =>
            c.possible_score / ((c.tasks_true + c.tasks_false : ℤ) : ℚ))).sum
          / (([("a", c3catA), ("b", c3catB)]).length : ℚ)
          * ((((⟨"M", 2, 2, 0, 4, 0, []⟩ : VerificationCategory).tasks_true
              + (⟨"M", 2, 2, 0, 4, 0, []⟩ : VerificationCategory).tasks_false
              : ℤ)) : ℚ) :=
  (C3_meta_normalized_scores "M" c3info [("a", c3catA), ("b", c3catB)]
    ⟨[], ["a", "b"]⟩ [("a", c3catA), ("b", c3catB)] ⟨"M", 2, 2, 0, 4, 0, []⟩
    (by rfl) (by rfl)
    (by
      simp [handle_meta_category, get_categories, metaSubcategories,
        lookupProcessed, c3info, c3catA, c3catB, pySum, pySumInt,
        strContainsSub, infixOfAux]
      norm_num)).1

/-! ## `mkAnaDatabaseWitnesses.py`: `_classify_task` -/

/-- The `WITNESSLINT_CORRECTNESS_TYPES` tuple. -/
def WITNESSLINT_CORRECTNESS_TYPES : List String :=
  ["CORRECTNESS", "correctness_witness"]

/-- The `WITNESSLINT_VIOLATION_TYPES` tuple. -/
def WITNESSLINT_VIOLATION_TYPES : List String :=
  ["VIOLATION", "violation_witness"]

/-- One row of the witness database as consumed by `_classify_task`:
the identifying columns, the two witness-type columns, and the
per-validator status columns (an absent column models a pandas `KeyError`
or a non-string cell). -/
structure DbRow where
  verifier : String
  task : String
  expected : String
  witness_expected : String
  witness_type_1 : String
  witness_type_2 : String
  validator_status : List (String × String) := []
deriving Repr, DecidableEq

/-- Lookup of a validator column value in a row. -/
def rowLookup (row : DbRow) (c : String) : Option String :=
  (row.validator_status.find? (fun p => p.1 == c)).map (·.2)

/-- The `witness_kind.split("-")` unpacking, guarded by the assert that the
kind is one of the four valid kinds (`none` models the `AssertionError`). -/
def splitWitnessKind (witness_kind : String) : Option (String × String) :=
  if witness_kind = "correctness-1.0" then some ("correctness", "1.0")
  else if witness_kind = "correctness-2.0" then some ("correctness", "2.0")
  else if witness_kind = "violation-1.0" then some ("violation", "1.0")
  else if witness_kind = "violation-2.0" then some ("violation", "2.0")
  else none

/-- The `row[f"witnessType-{version}"]` lookup (`version` is `"1.0"` or
`"2.0"` by the kind assert). -/
def witnessTypeFor (row : DbRow) (version : String) : String :=
  if version = "1.0" then row.witness_type_1 else row.witness_type_2

/-- The `opposite_verdict` of `_classify_task`. -/
def oppositeVerdict (expected_verdict : String) : String :=
  if expected_verdict = RESULT_TRUE_PROP then RESULT_FALSE_PROP
  else RESULT_TRUE_PROP

/-- `len([1 for c in columns if row[c].startswith(v)])`. -/
def countPrefix (row : DbRow) (columns : List String) (v : String) : Nat :=
  (columns.filter (fun c =>
    match rowLookup row c with
    | some s => strStartsWith s v
    | none => false)).length

/-- The voting tail of `_classify_task` (after the witness-type checks):
every validator column must be present as a string (`AssertionError`
otherwise); 75%-majority thresholds decide CORRECT/WRONG, anything else is
UNKNOWN; the voting ratio is always recorded. -/
def votingPhase (row : DbRow) (columns : List String)
    (expected_verdict : String) : Option (String × String) :=
  if columns.any (fun c => (rowLookup row c).isNone) then none
  else
    let confirmed := countPrefix row columns expected_verdict
    let rejected := countPrefix row columns (oppositeVerdict expected_verdict)
    let voting := toString confirmed ++ ":" ++ toString rejected
    if confirmed + rejected ≥ 2 then
      if confirmed ≥ 3 * rejected then some (WITNESS_CATEGORY_CORRECT, voting)
      else if rejected ≥ 3 * confirmed then some (WITNESS_CATEGORY_WRONG, voting)
      else some (WITNESS_CATEGORY_UNKNOWN, voting)
    else some (WITNESS_CATEGORY_UNKNOWN, voting)

/-- Model of `_classify_task`: returns the pair
(classification, voting string); `none` models a raised exception
(`AssertionError` on an invalid kind or non-string column, `ValueError`
on an unexpected witness verdict). -/
def _classify_task (row : DbRow) (columns : List String)
    (witness_kind : String) : Option (String × String) :=
  match splitWitnessKind witness_kind with
  | none => none
  | some (validator_expected_witness, version) =>
    let expected_verdict := strToLower row.expected
    if row.verifier = "witnessmap" then
      if row.witness_expected = "" ∨ row.witness_expected = "-" then
        some (WITNESS_CATEGORY_UNKNOWN, "-:-")
      else if strToLower row.witness_expected ≠ strToLower expected_verdict then
        some (WITNESS_CATEGORY_WRONG, "-:-")
      else
        some (WITNESS_CATEGORY_CORRECT, "-:-")
    else if ¬ (row.witness_expected = "" ∨ row.witness_expected = "-") then
      none
    else if WITNESSLINT_CORRECTNESS_TYPES.contains (witnessTypeFor row version) then
      if validator_expected_witness = "violation" then
        some (WITNESS_CATEGORY_UNKNOWN, "-:-")
      else if strStartsWith expected_verdict RESULT_FALSE_PROP then
        some (WITNESS_CATEGORY_WRONG, "-:-")
      else votingPhase row columns expected_verdict
    else if WITNESSLINT_VIOLATION_TYPES.contains (witnessTypeFor row version) then
      if validator_expected_witness = "correctness" then
        some (WITNESS_CATEGORY_UNKNOWN, "-:-")
      else if strStartsWith expected_verdict RESULT_TRUE_PROP then
        some (WITNESS_CATEGORY_WRONG, "-:-")
      else votingPhase row columns expected_verdict
    else
      some (WITNESS_CATEGORY_UNKNOWN, "-:-")

-- sanity: the example of spec §8 (three validators "true","true","false"
-- on a false-expected task) yields UNKNOWN with voting "1:2"
example :
    _classify_task
      { verifier := "v", task := "t", expected := "false", witness_expected := "",
        witness_type_1 := "VIOLATION", witness_type_2 := "",
        validator_status := [("A", "true"), ("B", "true"), ("C", "false")] }
      ["A", "B", "C"] "violation-1.0"
      = some (WITNESS_CATEGORY_UNKNOWN, "1:2") := by rfl

/-! ## Claim C4 -/

/-- C4: for every classification that reaches the voting stage of
`_classify_task` (non-witnessmap row, witness type matching the validator
kind and compatible with the expected verdict): fewer than 2 votes yield
UNKNOWN regardless of the ratio; with at least 2 votes the result is
CORRECT iff `confirmed ≥ 3 × rejected`, WRONG iff
`rejected ≥ 3 × confirmed`, and UNKNOWN otherwise; and the voting string
`"confirmed:rejected"` is always recorded. -/
theorem C4_voting_thresholds (row : DbRow) (columns : List String)
    (witness_kind validator_expected_witness version : String)
    (out : String × String)
    (hkind : splitWitnessKind witness_kind
      = some (validator_expected_witness, version))
    (hver : row.verifier ≠ "witnessmap")
    (hwe : row.witness_expected = "" ∨ row.witness_expected = "-")
    (hbranch :
      (WITNESSLINT_CORRECTNESS_TYPES.contains (witnessTypeFor row version) = true
        ∧ validator_expected_witness ≠ "violation"
        ∧ ¬ strStartsWith (strToLower row.expected) RESULT_FALSE_PROP = true)
      ∨ (WITNESSLINT_VIOLATION_TYPES.contains (witnessTypeFor row version) = true
        ∧ validator_expected_witness ≠ "correctness"
        ∧ ¬ strStartsWith (strToLower row.expected) RESULT_TRUE_PROP = true))
    (h : _classify_task row columns witness_kind = some out) :
    out.2 = toString (countPrefix row columns (strToLower row.expected))
        ++ ":" ++ toString (countPrefix row columns
            (oppositeVerdict (strToLower row.expected)))
    ∧ (countPrefix row columns (strToLower row.expected)
        + countPrefix row columns (oppositeVerdict (strToLower row.expected)) < 2 →
        out.1 = WITNESS_CATEGORY_UNKNOWN)
    ∧ (2 ≤ countPrefix row columns (strToLower row.expected)
        + countPrefix row columns (oppositeVerdict (strToLower row.expected)) →
        (out.1 = WITNESS_CATEGORY_CORRECT ↔
          3 * countPrefix row columns (oppositeVerdict (strToLower row.expected))
            ≤ countPrefix row columns (strToLower row.expected))
        ∧ (out.1 = WITNESS_CATEGORY_WRONG ↔
          3 * countPrefix row columns (strToLower row.expected)
            ≤ countPrefix row columns (oppositeVerdict (strToLower row.expected)))
        ∧ (out.1 = WITNESS_CATEGORY_UNKNOWN ↔
          (¬ 3 * countPrefix row columns (oppositeVerdict (strToLower row.expected))
              ≤ countPrefix row columns (strToLower row.expected)
            ∧ ¬ 3 * countPrefix row columns (strToLower row.expected)
              ≤ countPrefix row columns
                  (oppositeVerdict (strToLower row.expected))))) := by
  have hstep : _classify_task row columns witness_kind
      = votingPhase row columns (strToLower row.expected) := by
    rw [_classify_task, hkind]
    dsimp only
    rw [if_neg hver, if_neg (not_not_intro hwe)]
    rcases hbranch with ⟨hc, hnv, hnf⟩ | ⟨hv, hnc, hnt⟩
    · rw [if_pos hc, if_neg hnv, if_neg hnf]
    · have hcf : ¬ WITNESSLINT_CORRECTNESS_TYPES.contains
          (witnessTypeFor row version) = true := by
        rcases (by simpa [WITNESSLINT_VIOLATION_TYPES] using hv :
            witnessTypeFor row version = "VIOLATION"
            ∨ witnessTypeFor row version = "violation_witness") with hw | hw <;>
          rw [hw] <;> decide
      rw [if_neg hcf, if_pos hv, if_neg hnc, if_neg hnt]
  rw [hstep] at h
  rw [votingPhase] at h
  split at h
  · exact absurd h (by simp)
  · dsimp only at h
    set confirmed := countPrefix row columns (strToLower row.expected) with hcdef
    set rejected := countPrefix row columns
      (oppositeVerdict (strToLower row.expected)) with hrdef
    by_cases hsum : 2 ≤ confirmed + rejected
    · rw [if_pos hsum] at h
      by_cases hge : 3 * rejected ≤ confirmed
      · rw [if_pos hge] at h
        obtain rfl := Option.some.inj h
        refine ⟨rfl, fun hlt => absurd hsum (by omega), fun _ => ?_⟩
        refine ⟨⟨fun _ => hge, fun _ => rfl⟩, ?_, ?_⟩
        · constructor
          · intro hbad
            exact ((by decide :
              WITNESS_CATEGORY_CORRECT ≠ WITNESS_CATEGORY_WRONG) hbad).elim
          · intro hle; exact absurd hsum (by omega)
        · constructor
          · intro hbad
            exact ((by decide :
              WITNESS_CATEGORY_CORRECT ≠ WITNESS_CATEGORY_UNKNOWN) hbad).elim
          · intro ⟨hbad, _⟩; exact absurd hge hbad
      · rw [if_neg hge] at h
        by_cases hge2 : 3 * confirmed ≤ rejected
        · rw [if_pos hge2] at h
          obtain rfl := Option.some.inj h
          refine ⟨rfl, fun hlt => absurd hsum (by omega), fun _ => ?_⟩
          refine ⟨?_, ⟨fun _ => hge2, fun _ => rfl⟩, ?_⟩
          · constructor
            · intro hbad
              exact ((by decide :
                WITNESS_CATEGORY_WRONG ≠ WITNESS_CATEGORY_CORRECT) hbad).elim
            · intro hle; exact absurd hle hge
          · constructor
            · intro hbad
              exact ((by decide :
                WITNESS_CATEGORY_WRONG ≠ WITNESS_CATEGORY_UNKNOWN) hbad).elim
            · intro ⟨_, hbad⟩; exact absurd hge2 hbad
        · rw [if_neg hge2] at h
          obtain rfl := Option.some.inj h
          refine ⟨rfl, fun hlt => rfl, fun _ => ?_⟩
          refine ⟨?_, ?_, ⟨fun _ => ⟨hge, hge2⟩, fun _ => rfl⟩⟩
          · constructor
            · intro hbad
              exact ((by decide :
                WITNESS_CATEGORY_UNKNOWN ≠ WITNESS_CATEGORY_CORRECT) hbad).elim
            · intro hle; exact absurd hle hge
          · constructor
            · intro hbad
              exact ((by decide :
                WITNESS_CATEGORY_UNKNOWN ≠ WITNESS_CATEGORY_WRONG) hbad).elim
            · intro hle; exact absurd hle hge2
    · rw [if_neg hsum] at h
      obtain rfl := Option.some.inj h
      exact ⟨rfl, fun _ => rfl, fun hge => absurd hge hsum⟩

/-- Witness for `C4_voting_thresholds` at a concrete input: two validators
confirming a true-expected correctness witness give CORRECT with voting
string `"2:0"`. -/
theorem C4_witness :
    ((WITNESS_CATEGORY_CORRECT, "2:0") : String × String).2
      = toString (countPrefix
          { verifier := "v", task := "t", expected := "true",
            witness_expected := "", witness_type_1 := "CORRECTNESS",
            witness_type_2 := "",
            validator_status := [("A", "true"), ("B", "true")] }
          ["A", "B"] (strToLower "true"))
        ++ ":" ++ toString (countPrefix
          { verifier := "v", task := "t", expected := "true",
            witness_expected := "", witness_type_1 := "CORRECTNESS",
            witness_type_2 := "",
            validator_status := [("A", "true"), ("B", "true")] }
          ["A", "B"] (oppositeVerdict (strToLower "true"))) :=
  (C4_voting_thresholds
    { verifier := "v", task := "t", expected := "true", witness_expected := "",
      witness_type_1 := "CORRECTNESS", witness_type_2 := "",
      validator_status := [("A", "true"), ("B", "true")] }
    ["A", "B"] "correctness-1.0" "correctness" "1.0"
    (WITNESS_CATEGORY_CORRECT, "2:0")
    (by rfl) (by decide) (Or.inl rfl)
    (Or.inl ⟨by decide, by decide, by decide⟩) (by rfl)).1

/-! ## Claim C7 -/

/-- C7 counterexample: a correctness witness on a false-expected task is
classified WRONG by `_classify_task`, not UNKNOWN as the claim states. -/
theorem C7_counterexample :
    _classify_task
      { verifier := "v", task := "t", expected := "false", witness_expected := "",
        witness_type_1 := "CORRECTNESS", witness_type_2 := "" }
      [] "correctness-1.0"
      = some (WITNESS_CATEGORY_WRONG, "-:-")
    ∧ WITNESS_CATEGORY_WRONG ≠ WITNESS_CATEGORY_UNKNOWN := by
  exact ⟨by rfl, by decide⟩

/-- C7 (amended): for non-witnessmap rows, a disagreement between the
linter-observed witness type and the validator kind under test — and an
unrecognized witness type — classify UNKNOWN; but an expected verdict the
witness type cannot confirm (correctness witness on a false-expected task,
violation witness on a true-expected task) classifies **WRONG**. -/
theorem C7_type_mismatch_policy (row : DbRow) (columns : List String)
    (witness_kind validator_expected_witness version : String)
    (hkind : splitWitnessKind witness_kind
      = some (validator_expected_witness, version))
    (hver : row.verifier ≠ "witnessmap")
    (hwe : row.witness_expected = "" ∨ row.witness_expected = "-") :
    (WITNESSLINT_CORRECTNESS_TYPES.contains (witnessTypeFor row version) = true →
      validator_expected_witness = "violation" →
      _classify_task row columns witness_kind
        = some (WITNESS_CATEGORY_UNKNOWN, "-:-"))
    ∧ (WITNESSLINT_VIOLATION_TYPES.contains (witnessTypeFor row version) = true →
      validator_expected_witness = "correctness" →
      _classify_task row columns witness_kind
        = some (WITNESS_CATEGORY_UNKNOWN, "-:-"))
    ∧ (¬ WITNESSLINT_CORRECTNESS_TYPES.contains (witnessTypeFor row version) = true →
      ¬ WITNESSLINT_VIOLATION_TYPES.contains (witnessTypeFor row version) = true →
      _classify_task row columns witness_kind
        = some (WITNESS_CATEGORY_UNKNOWN, "-:-"))
    ∧ (WITNESSLINT_CORRECTNESS_TYPES.contains (witnessTypeFor row version) = true →
      validator_expected_witness ≠ "violation" →
      strStartsWith (strToLower row.expected) RESULT_FALSE_PROP = true →
      _classify_task row columns witness_kind
        = some (WITNESS_CATEGORY_WRONG, "-:-"))
    ∧ (WITNESSLINT_VIOLATION_TYPES.contains (witnessTypeFor row version) = true →
      validator_expected_witness ≠ "correctness" →
      strStartsWith (strToLower row.expected) RESULT_TRUE_PROP = true →
      _classify_task row columns witness_kind
        = some (WITNESS_CATEGORY_WRONG, "-:-")) := by
  have hcv : WITNESSLINT_VIOLATION_TYPES.contains (witnessTypeFor row version) = true →
      ¬ WITNESSLINT_CORRECTNESS_TYPES.contains (witnessTypeFor row version) = true := by
    intro hv
    rcases (by simpa [WITNESSLINT_VIOLATION_TYPES] using hv :
        witnessTypeFor row version = "VIOLATION"
        ∨ witnessTypeFor row version = "violation_witness") with hw | hw <;>
      rw [hw] <;> decide
  refine ⟨?_, ?_, ?_, ?_, ?_⟩
  · intro hc hviol
    rw [_classify_task, hkind]
    dsimp only
    rw [if_neg hver, if_neg (not_not_intro hwe), if_pos hc, if_pos hviol]
  · intro hv hcorr
    rw [_classify_task, hkind]
    dsimp only
    rw [if_neg hver, if_neg (not_not_intro hwe), if_neg (hcv hv), if_pos hv,
      if_pos hcorr]
  · intro hnc hnv
    rw [_classify_task, hkind]
    dsimp only
    rw [if_neg hver, if_neg (not_not_intro hwe), if_neg hnc, if_neg hnv]
  · intro hc hnviol hfalse
    rw [_classify_task, hkind]
    dsimp only
    rw [if_neg hver, if_neg (not_not_intro hwe), if_pos hc, if_neg hnviol,
      if_pos hfalse]
  · intro hv hncorr htrue
    rw [_classify_task, hkind]
    dsimp only
    rw [if_neg hver, if_neg (not_not_intro hwe), if_neg (hcv hv), if_pos hv,
      if_neg hncorr, if_pos htrue]

/-- Witness for `C7_type_mismatch_policy` at a concrete input: a
correctness witness tested under the violation kind is UNKNOWN. -/
theorem C7_witness :
    _classify_task
      { verifier := "v", task := "t", expected := "false", witness_expected := "",
        witness_type_1 := "CORRECTNESS", witness_type_2 := "" }
      [] "violation-1.0"
      = some (WITNESS_CATEGORY_UNKNOWN, "-:-") :=
  (C7_type_mismatch_policy
    { verifier := "v", task := "t", expected := "false", witness_expected := "",
      witness_type_1 := "CORRECTNESS", witness_type_2 := "" }
    [] "violation-1.0" "violation" "1.0"
    (by rfl) (by decide) (Or.inl rfl)).1 (by decide) rfl

/-! ## Ranking selectors: `get_best` (`mkAnaScores.py`) and the validator
variant (`mkAnaScoresValidators.py`) -/

/-- The sort key of `get_best`: the score and the reciprocal of the
successful-run cputime (`0` when that cputime is zero — Python falsiness). -/
def rankKey (is_falsification : Bool) (r : CategoryResult) : ℚ × ℚ :=
  if is_falsification then
    (r.score_false,
     if r.cputime.success_false ≠ 0 then 1 / r.cputime.success_false else 0)
  else
    (r.score, if r.cputime.success ≠ 0 then 1 / r.cputime.success else 0)

/-- Python tuple comparison for `sorted(..., reverse=True)`: `k2 ≤ k1`
lexicographically (so that the stable sort is descending). -/
def keyGe (k1 k2 : ℚ × ℚ) : Bool :=
  decide (k2.1 < k1.1 ∨ (k2.1 = k1.1 ∧ k2.2 ≤ k1.2))

/-- `keyGe` is transitive. -/
theorem keyGe_trans (x y z : ℚ × ℚ) (h1 : keyGe x y = true)
    (h2 : keyGe y z = true) : keyGe x z = true := by
  simp only [keyGe, decide_eq_true_eq] at h1 h2 ⊢
  rcases h1 with h | ⟨he, hle⟩ <;> rcases h2 with h' | ⟨he', hle'⟩
  · exact Or.inl (lt_trans h' h)
  · exact Or.inl (he' ▸ h)
  · exact Or.inl (he ▸ h')
  · exact Or.inr ⟨he'.trans he, le_trans hle' hle⟩

/-- `keyGe` is total. -/
theorem keyGe_total (x y : ℚ × ℚ) : (keyGe x y || keyGe y x) = true := by
  simp only [keyGe, Bool.or_eq_true, decide_eq_true_eq]
  rcases lt_trichotomy x.1 y.1 with h | h | h
  · exact Or.inr (Or.inl h)
  · rcases le_total x.2 y.2 with h2 | h2
    · exact Or.inr (Or.inr ⟨h, h2⟩)
    · exact Or.inl (Or.inr ⟨h.symm, h2⟩)
  · exact Or.inl (Or.inl h)

/-- Model of `is_opt_out`: `none` or an empty map means no opt-outs; the
pair must be present in the `opt_out` map. -/
def is_opt_out (category verifier : String)
    (opt_out : Option (List (String × List String))) : Bool :=
  match opt_out with
  | none => false
  | some l =>
    match (l.find? (fun p => p.1 == verifier)).map (·.2) with
    | none => false
    | some cats => cats.contains category

/-- The competitor filter of the verifier-track `get_best`: not hors
concours (external fm-tools lookup, abstracted as a predicate), not opted
out, and a nonempty category. -/
def bestCompetitors (category : VerificationCategory)
    (opt_out : Option (List (String × List String))) (hors : String → Bool) :
    List (String × CategoryResult) :=
  category.results.filter (fun p =>
    ¬ hors p.1 = true ∧ ¬ is_opt_out category.name p.1 opt_out = true
      ∧ category.tasks_true + category.tasks_false ≠ 0)

/-- The stable descending sort of `get_best`
(`sorted(..., key=…, reverse=True)`). -/
def rankedCompetitors (category : VerificationCategory)
    (opt_out : Option (List (String × List String))) (hors : String → Bool)
    (is_falsification : Bool) : List (String × CategoryResult) :=
  (bestCompetitors category opt_out hors).mergeSort
    (fun a b => keyGe (rankKey is_falsification a.2) (rankKey is_falsification b.2))

/-- Model of the verifier-track `get_best`: top 3 of the descending sort,
padded with `None` to exactly three entries. -/
def get_best (category : VerificationCategory)
    (opt_out : Option (List (String × List String))) (hors : String → Bool)
    (is_falsification : Bool) : List (Option String) :=
  let result := ((rankedCompetitors category opt_out hors
    is_falsification).take 3).map (fun p => some p.1)
  result ++ List.replicate (3 - result.length) none

/-- Model of `utils.ValidationCategory` (the fields read by the
validator-track `get_best`). -/
structure ValidationCategory where
  name : String
  witnesses_correct : Int
  witnesses_wrong : Int
  results : List (String × CategoryResult) := []
deriving Repr, DecidableEq

/-- The competitor list of the validator-track `get_best` (validator names
reduced via `split("-validate-")[0]`; the external participation and
hors-concours checks are abstracted as the predicate). -/
def validatorCompetitors (category : ValidationCategory)
    (participates_not_hc : String → Bool) : List (String × CategoryResult) :=
  (category.results.map (fun p => (splitValidate p.1, p.2))).filter
    (fun p => participates_not_hc p.1 = true
      ∧ category.witnesses_correct + category.witnesses_wrong > 0)

/-- Model of the validator-track `get_best`
(`mkAnaScoresValidators.py`): non-positive scorers are removed before
ranking; when fewer than 3 positive scorers remain, one `None` is appended
per removed non-positive scorer; the result is truncated to 3. -/
def get_best_validators (category : ValidationCategory)
    (participates_not_hc : String → Bool) (is_falsification : Bool) :
    List (Option String) :=
  let competitors := validatorCompetitors category participates_not_hc
  let winners_with_non_positive_score :=
    (competitors.filter (fun p => p.2.score ≤ 0)).length
  let competitors2 := competitors.filter (fun p => p.2.score > 0)
  let result := ((competitors2.mergeSort (fun a b =>
    keyGe (rankKey is_falsification a.2)
      (rankKey is_falsification b.2))).take 3).map (fun p => some p.1)
  let result2 :=
    if result.length < 3 then
      result ++ List.replicate winners_with_non_positive_score (none : Option String)
    else result
  result2.take 3

/-! ## Claim C9 -/

/-- Zero measurement for the C9 instances. -/
def c9cd0 : CategoryData := ⟨0, 0, 0, 0, 0, none⟩

/-- A non-positive-score competitor result for the C9 instances. -/
def c9neg : CategoryResult :=
  ⟨-5, 0, c9cd0, c9cd0, 0, 0, 0, 0, 0, 0, [], [], none⟩

/-- A positive-score competitor result for the C9 instances. -/
def c9pos : CategoryResult :=
  ⟨1, 0, c9cd0, c9cd0, 0, 0, 0, 0, 0, 0, [], [], none⟩

/-- The ranked competitor list is sorted under `keyGe` of the rank keys. -/
theorem rankedCompetitors_sorted (category : VerificationCategory)
    (opt_out : Option (List (String × List String))) (hors : String → Bool)
    (fals : Bool) :
    List.Pairwise (fun a b =>
        keyGe (rankKey fals a.2) (rankKey fals b.2) = true)
      (rankedCompetitors category opt_out hors fals) := by
  have h := @List.sorted_mergeSort (String × CategoryResult)
    (fun a b => keyGe (rankKey fals a.2) (rankKey fals b.2))
    (fun a b c => keyGe_trans (rankKey fals a.2) (rankKey fals b.2)
      (rankKey fals c.2))
    (fun a b => keyGe_total (rankKey fals a.2) (rankKey fals b.2))
    (bestCompetitors category opt_out hors)
  exact h

/-- A named entry of the (possibly `None`-padded, truncated) list comes
from the unpadded list. -/
theorem mem_padded_take {α : Type} (x : α) (A : List (Option α)) (k m : Nat)
    (h : some x ∈ (if A.length < 3 then A ++ List.replicate k none
      else A).take m) :
    some x ∈ A := by
  have h2 := List.take_subset m _ h
  split at h2
  · rcases List.mem_append.mp h2 with h3 | h3
    · exact h3
    · exact absurd (List.eq_of_mem_replicate h3) (by simp)
  · exact h2

/-- C9 counterexample: the validator-track `get_best` does **not** return
exactly 3 entries and does **not** backfill with non-positive scorers: with
a single competitor of score −5 the result is `[None]` — one `None` for
the excluded non-positive scorer, and no third entries at all. -/
theorem C9_counterexample :
    get_best_validators ⟨"C", 1, 0, [("v", c9neg)]⟩ (fun _ => true) false
      = [none]
    ∧ ([(none : Option String)]).length ≠ 3
    ∧ (none : Option String) ≠ some "v" := by
  refine ⟨?_, by decide, by decide⟩
  have hcomp : validatorCompetitors ⟨"C", 1, 0, [("v", c9neg)]⟩ (fun _ => true)
      = [("v", c9neg)] := by rfl
  rw [get_best_validators, hcomp]
  have hpos : ([("v", c9neg)].filter (fun p => decide (p.2.score > 0))) = [] := by
    rfl
  have hneg : ([("v", c9neg)].filter (fun p => decide (p.2.score ≤ 0))).length
      = 1 := by rfl
  simp [hpos, hneg]

/-- C9 (amended): the verifier-track `get_best` always returns exactly 3
entries (padded with `None`), its underlying competitor order is sorted
descending by `(score, reciprocal success cputime or 0)`, and the output
is the `None`-padded top 3 of that order; the validator-track variant
returns at most 3 entries, and every named entry it returns is a
competitor with **positive** score — non-positive scorers are represented
by `None` padding, never backfilled. -/
theorem C9_ranking_selector :
    (∀ (category : VerificationCategory) opt_out hors fals,
      (get_best category opt_out hors fals).length = 3)
    ∧ (∀ (category : VerificationCategory) opt_out hors fals,
      List.Pairwise (fun a b =>
          keyGe (rankKey fals a.2) (rankKey fals b.2) = true)
        (rankedCompetitors category opt_out hors fals)
      ∧ get_best category opt_out hors fals
        = ((rankedCompetitors category opt_out hors fals).take 3).map
            (fun p => some p.1)
          ++ List.replicate
            (3 - (((rankedCompetitors category opt_out hors fals).take 3).map
              (fun p => (some p.1 : Option String))).length) none)
    ∧ (∀ (category : ValidationCategory) part fals,
      (get_best_validators category part fals).length ≤ 3)
    ∧ (∀ (category : ValidationCategory) part fals n,
      some n ∈ get_best_validators category part fals →
      ∃ v r, (v, r) ∈ category.results ∧ splitValidate v = n
        ∧ r.score > 0 ∧ part n = true
        ∧ category.witnesses_correct + category.witnesses_wrong > 0) := by
  refine ⟨?_, ?_, ?_, ?_⟩
  · intro category opt_out hors fals
    rw [get_best]
    have hlen : (((rankedCompetitors category opt_out hors fals).take 3).map
        (fun p => (some p.1 : Option String))).length ≤ 3 := by
      rw [List.length_map]
      exact List.length_take_le 3 _
    rw [List.length_append, List.length_replicate]
    omega
  · intro category opt_out hors fals
    constructor
    · exact rankedCompetitors_sorted category opt_out hors fals
    · rw [get_best]
  · intro category part fals
    rw [get_best_validators]
    exact List.length_take_le 3 _
  · intro category part fals n hm
    rw [get_best_validators] at hm
    have hA := mem_padded_take n _ _ _ hm
    obtain ⟨p, hp, hpn⟩ := List.mem_map.mp hA
    obtain rfl : p.1 = n := Option.some.inj hpn
    have hp2 := List.take_subset 3 _ hp
    have hp3 := (List.mergeSort_perm _ _).mem_iff.mp hp2
    obtain ⟨hp4, hscore⟩ := List.mem_filter.mp hp3
    rw [validatorCompetitors] at hp4
    obtain ⟨hp5, hcond⟩ := List.mem_filter.mp hp4
    obtain ⟨q, hq, hqp⟩ := List.mem_map.mp hp5
    refine ⟨q.1, q.2, hq, ?_, ?_, ?_, ?_⟩
    · exact congrArg Prod.fst hqp
    · have h2 : (splitValidate q.1, q.2).2 = p.2 := congrArg Prod.snd hqp
      rw [show q.2 = p.2 from h2]
      simpa using hscore
    · have := (by simpa using hcond :
        part p.1 = true ∧ category.witnesses_correct + category.witnesses_wrong > 0)
      exact this.1
    · have := (by simpa using hcond :
        part p.1 = true ∧ category.witnesses_correct + category.witnesses_wrong > 0)
      exact this.2

/-- Witness for `C9_ranking_selector` at a concrete input: the single named
entry returned by the validator-track `get_best` names a positive scorer. -/
theorem C9_witness :
    ∃ v r, (v, r) ∈ [("w-validate-x", c9pos)] ∧ splitValidate v = "w"
      ∧ r.score > 0 ∧ (fun (_ : String) => true) "w" = true
      ∧ (1 : Int) + 0 > 0 :=
  C9_ranking_selector.2.2.2 ⟨"C", 1, 0, [("w-validate-x", c9pos)]⟩
    (fun _ => true) false "w"
    (by
      have hcomp : validatorCompetitors ⟨"C", 1, 0, [("w-validate-x", c9pos)]⟩
          (fun _ => true) = [("w", c9pos)] := by rfl
      rw [get_best_validators, hcomp]
      have hpos : ([("w", c9pos)].filter (fun p => decide (p.2.score > 0)))
          = [("w", c9pos)] := by rfl
      have hneg : ([("w", c9pos)].filter (fun p => decide (p.2.score ≤ 0))).length
          = 0 := by rfl
      simp [hpos, hneg])
